import Mathlib

/-!
# Verification of the game-room engine of the anonymous chat backend

This file gives a shallow embedding of the game-room state machine and
round-lifecycle engine of `server.js` (the draw-and-guess / hangman game
coordinator): the connection registry, the room directory, the round engine
and the events it emits.  Each server function is translated directly from
the source; stateful mutation becomes explicit state passing on a
`ServerState` record, `setTimeout` / `clearTimeout` become explicit edits of
a pending-timer table, and the random choices (`Math.random`,
`randomUUID`) become explicit oracle parameters.  Theorems about the
claims of the specification follow the definitions.

The embedding covers the game core (room directory, round engine, chat-as-
guess routing, disconnect handling).  The pass-through features the
specification lists as external collaborators (private-chat pairing, call
signaling, read receipts, typing indicators) do not touch the room or
round state and are not embedded; emitted payloads keep the fields the
properties inspect.
-/

set_option maxRecDepth 4000

/-- JavaScript-style whitespace test (the characters relevant to the inputs
the server handles). -/
def isJsSpace (c : Char) : Bool :=
  c == ' ' || c == '\t' || c == '\n' || c == '\r' || c == '\x0b' || c == '\x0c'

/-- `String.prototype.trim`: strip leading and trailing whitespace. -/
def jsTrim (s : String) : String :=
  ⟨((s.data.dropWhile isJsSpace).reverse.dropWhile isJsSpace).reverse⟩

/-- Lower-case one character as `String.prototype.toLowerCase` does on the
ASCII range used by the word lists. -/
def jsToLowerChar (c : Char) : Char :=
  if 65 ≤ c.toNat && c.toNat ≤ 90 then Char.ofNat (c.toNat + 32) else c

/-- `String.prototype.toLowerCase` (ASCII range). -/
def jsToLower (s : String) : String :=
  ⟨s.data.map jsToLowerChar⟩

/-- Lookup in a JavaScript-object-like association list (`obj[k]`). -/
def lookupA {α : Type} : List (String × α) → String → Option α
  | [], _ => none
  | p :: ps, k => if p.1 == k then some p.2 else lookupA ps k

/-- Assignment `obj[k] = v`: overwrite in place if the key exists, append
otherwise (JavaScript objects keep insertion order and have no duplicate
keys). -/
def setA {α : Type} : List (String × α) → String → α → List (String × α)
  | [], k, v => [(k, v)]
  | p :: ps, k, v => if p.1 == k then (k, v) :: ps else p :: setA ps k v

/-- `delete obj[k]`. -/
def eraseA {α : Type} : List (String × α) → String → List (String × α)
  | [], _ => []
  | p :: ps, k => if p.1 == k then eraseA ps k else p :: eraseA ps k

/-- `Array.prototype.findIndex`. -/
def findIndexA {α : Type} (p : α → Bool) : List α → Option Nat
  | [] => none
  | a :: as => if p a then some 0 else (findIndexA p as).map (· + 1)

/-- A connected user's profile (`users[socket.id]`). -/
structure User where
  id : String
  name : String
  gender : String := ""
  age : Nat := 0
deriving DecidableEq, Repr, Inhabited

/-- A game room (`activeGameRooms[roomId]`). -/
structure Room where
  id : String
  name : String
  creatorId : String
  creatorName : String
  players : List User
  password : Option String := none
  inProgress : Bool := false
  gameType : String := "doodle"
deriving DecidableEq, Repr, Inhabited

/-- One entry of the public room list (`getPublicRoomList`). -/
structure RoomSummary where
  id : String
  name : String
  creatorName : String
  players : List User
  hasPassword : Bool
  inProgress : Bool
  gameType : String
deriving DecidableEq, Repr

/-- Per-room game state (`gameStates[roomId]`).  Fields that a given game
variant never sets keep their defaults, mirroring `undefined` properties of
the JavaScript object. -/
structure GameState where
  gameType : String
  players : List String
  scores : List (String × Int) := []
  isRoundActive : Bool
  creatorId : String
  currentPlayerIndex : Int := 0
  drawingHistory : List Nat := []
  usedWords : List String := []
  drawer : Option User := none
  word : Option String := none
  roundTimer : Option Nat := none
  turnTimer : Option Nat := none
  roundEndTime : Option Nat := none
  currentPlayerTurn : Option String := none
  displayWord : List String := []
  incorrectGuesses : List String := []
  correctGuesses : List String := []
  isGameOver : Bool := false
  winner : Option User := none
  lastWinnerIndex : Option Int := none
  turnEndTime : Option Nat := none
deriving DecidableEq, Repr

/-- The payload of a `game:state` emission.  `none` models an absent key, so
a payload built by spreading a game state carries every field of that state
while the object literals of the doodle paths only carry the keys they
write — in particular the doodle literals have no `word` key at all. -/
structure StatePayload where
  gameType : Option String := none
  drawer : Option User := none
  isRoundActive : Option Bool := none
  scores : Option (List (String × Int)) := none
  creatorId : Option String := none
  players : Option (List User) := none
  playersIds : Option (List String) := none
  roundEndTime : Option Nat := none
  word : Option String := none
  displayWord : Option (List String) := none
  currentPlayerTurn : Option String := none
  currentPlayerIndex : Option Int := none
  turnEndTime : Option Nat := none
  roundTimer : Option Nat := none
  turnTimer : Option Nat := none
  incorrectGuesses : Option (List String) := none
  correctGuesses : Option (List String) := none
  isGameOver : Option Bool := none
  winner : Option User := none
  lastWinnerIndex : Option Int := none
  usedWords : Option (List String) := none
  drawingHistory : Option (List Nat) := none
deriving DecidableEq, Repr

/-- The continuation captured by a `setTimeout` call of the engine. -/
inductive TimerTask where
  /-- The round-deadline timer of `startNewDoodleRound`; the closure
  captures the round's word. -/
  | doodleRound (roomId : String) (word : String)
  /-- The anonymous three-second delay before the next doodle round. -/
  | doodleNext (roomId : String)
  /-- The per-turn timer of `setHangmanTurnTimer`. -/
  | hangmanTurn (roomId : String)
  /-- The five-second delay before the next hangman round. -/
  | hangmanNext (roomId : String)
deriving DecidableEq, Repr

/-- An observable emission through the broadcast gateway. -/
inductive Emit where
  | chatToRoom (room : String) (senderId : Option String) (name text : String)
  | rateLimit (target : String) (text : String)
  | gameMessageRoom (room : String) (text : String)
  | gameMessageSocket (target : String) (text : String)
  | gameTerminated (room : String) (text : String)
  | gameEnd (room : String) (text : String)
  | gameNewRound (room : String)
  | gameStateRoom (room : String) (p : StatePayload)
  | wordPrompt (target : String) (word : String)
  | correctGuess (room : String) (guesserId : String) (word : String)
  | gameOver (room : String) (winnerId : String) (scores : List (String × Int))
  | roomsList (rooms : List RoomSummary)
  | joined (target : String) (roomId : String)
  | joinError (target : String) (text : String)
  | drawRelay (room : String) (exceptId : String) (data : Nat)
  | clearCanvas (room : String)
  | drawingHistory (target : String) (data : List Nat)
  | userList (names : List String)
deriving DecidableEq, Repr

/-- The whole in-memory server state relevant to the game engine. -/
structure ServerState where
  time : Nat := 0
  users : List (String × User) := []
  activeGameRooms : List (String × Room) := []
  gameStates : List (String × GameState) := []
  chatHistory : List (String × List (String × String)) := []
  userMessageTimestamps : List (String × List Nat) := []
  pendingTimers : List (Nat × TimerTask) := []
  nextTimerId : Nat := 0
  nextUuid : Nat := 0
deriving DecidableEq, Repr

-- GAME CONSTANTS (verbatim from the source)

def DOODLE_WORDS : List String :=
  ["apple", "banana", "car", "house", "tree", "star", "sun", "moon", "dog",
   "cat", "guitar", "pizza", "mountain", "river", "bridge", "flower", "bird",
   "fish", "clock", "key", "boat", "book", "chair", "hat", "shoe", "glasses",
   "bicycle", "camera", "computer", "earth"]

def HANGMAN_WORDS : List String :=
  ["javascript", "html", "css", "nodejs", "react", "angular", "vue",
   "typescript", "webpack", "babel", "mongodb", "express", "socketio",
   "python", "java", "ruby", "docker", "kubernetes", "developer",
   "programming", "algorithm", "database", "authentication", "framework",
   "library", "component", "interface", "repository"]

def DOODLE_ROUND_TIME : Nat := 60 * 1000

def HANGMAN_TURN_TIME : Nat := 20 * 1000

def WINNING_SCORE : Int := 10

def MAX_INCORRECT_GUESSES : Nat := 6

def RATE_LIMIT_COUNT : Nat := 5

def RATE_LIMIT_SECONDS : Nat := 5

/-- `getPublicRoomList()`. -/
def getPublicRoomList (st : ServerState) : List RoomSummary :=
  st.activeGameRooms.map (fun p =>
    { id := p.2.id, name := p.2.name, creatorName := p.2.creatorName,
      players := p.2.players, hasPassword := p.2.password.isSome,
      inProgress := p.2.inProgress, gameType := p.2.gameType })

/-- Spreading a game state object into an emission payload
(`{...gameState}`): every property of the state is copied.  The `players`
property of a game state is a list of ids, recorded in `playersIds`. -/
def gsPayload (gs : GameState) : StatePayload :=
  { gameType := some gs.gameType, drawer := gs.drawer,
    isRoundActive := some gs.isRoundActive, scores := some gs.scores,
    creatorId := some gs.creatorId, playersIds := some gs.players,
    roundEndTime := gs.roundEndTime, word := gs.word,
    displayWord := some gs.displayWord,
    currentPlayerTurn := gs.currentPlayerTurn,
    currentPlayerIndex := some gs.currentPlayerIndex,
    turnEndTime := gs.turnEndTime, roundTimer := gs.roundTimer,
    turnTimer := gs.turnTimer,
    incorrectGuesses := some gs.incorrectGuesses,
    correctGuesses := some gs.correctGuesses,
    isGameOver := some gs.isGameOver, winner := gs.winner,
    lastWinnerIndex := gs.lastWinnerIndex,
    usedWords := some gs.usedWords,
    drawingHistory := some gs.drawingHistory }

/-- `getSerializableGameState`: spread the state and delete `turnTimer`. -/
def getSerializableGameState (gs : GameState) : StatePayload :=
  { gsPayload gs with turnTimer := none }

/-- `setTimeout`: register a pending timer, returning its handle. -/
def setTimeoutS (st : ServerState) (t : TimerTask) : ServerState × Nat :=
  ({ st with pendingTimers := st.pendingTimers ++ [(st.nextTimerId, t)],
             nextTimerId := st.nextTimerId + 1 },
   st.nextTimerId)

/-- `clearTimeout` on an optional handle (a missing handle is a no-op). -/
def clearTimeoutS (st : ServerState) (h : Option Nat) : ServerState :=
  { st with pendingTimers :=
      match h with
      | none => st.pendingTimers
      | some i => st.pendingTimers.filter (fun p => p.1 != i) }

/-- `startNewDoodleRound(roomId)` (lines 734-794).  `fuel` bounds the
source's unbounded "skip disconnected drawer" self-recursion (exhausted
fuel models the divergence the source would exhibit when every member is
disconnected); `rnd` is the `Math.random()` oracle for the word pick. -/
def startNewDoodleRound (fuel : Nat) (rnd : Nat) (roomId : String)
    (st : ServerState) : ServerState × List Emit :=
  match fuel with
  | 0 => (st, [])
  | fuel + 1 =>
    let gameState? := lookupA st.gameStates roomId
    let room? := lookupA st.activeGameRooms roomId
    if gameState?.isNone || room?.isNone
        || room?.elim true (fun r => r.players.length < 2) then
      let st1 :=
        match room? with
        | some r =>
          let r1 := { r with inProgress := false }
          { st with activeGameRooms := setA st.activeGameRooms roomId r1 }
        | none => st
      let st2 :=
        match gameState? with
        | some g =>
          let g1 := { g with isRoundActive := false }
          { st1 with gameStates := setA st1.gameStates roomId g1 }
        | none => st1
      (st2, [Emit.gameEnd roomId "Not enough players. Waiting for more...",
             Emit.gameStateRoom roomId
               { gameType := some "doodle",
                 creatorId := room?.map (·.creatorId),
                 players := some (room?.elim [] (·.players)),
                 isRoundActive := some false,
                 scores := some (gameState?.elim [] (·.scores)) },
             Emit.roomsList (getPublicRoomList st2)])
    else
      match gameState?, room? with
      | some gameState, some room =>
        let gs1 : GameState := { gameState with
          drawingHistory := ([] : List Nat),
          players := room.players.map (fun u : User => u.id) }
        let nextDrawerIndex : Nat :=
          ((gs1.currentPlayerIndex + 1).tmod (gs1.players.length : Int)).toNat
        let gs2 := { gs1 with currentPlayerIndex := (nextDrawerIndex : Int) }
        let drawerId := gs1.players.getD nextDrawerIndex ""
        match lookupA st.users drawerId with
        | none =>
          let st1 := { st with gameStates := setA st.gameStates roomId gs2 }
          startNewDoodleRound fuel rnd roomId st1
        | some drawerUser =>
          let available0 := DOODLE_WORDS.filter (fun w => !gs2.usedWords.contains w)
          let gs3 := if available0.isEmpty then { gs2 with usedWords := ([] : List String) } else gs2
          let available := if available0.isEmpty then DOODLE_WORDS else available0
          let word := available.getD (rnd % available.length) ""
          let roundEndTime := st.time + DOODLE_ROUND_TIME
          let gs4 := { gs3 with
            usedWords := gs3.usedWords ++ [word],
            drawer := some drawerUser, word := some word,
            isRoundActive := true,
            roundEndTime := some roundEndTime }
          let st1 := clearTimeoutS st gs4.roundTimer
          let p := setTimeoutS st1 (TimerTask.doodleRound roomId word)
          let gs5 := { gs4 with roundTimer := some p.2 }
          let st3 := { p.1 with gameStates := setA p.1.gameStates roomId gs5 }
          (st3, [Emit.gameNewRound roomId,
                 Emit.gameStateRoom roomId
                   { gameType := some "doodle", drawer := some drawerUser,
                     isRoundActive := some true, scores := some gs5.scores,
                     creatorId := some room.creatorId,
                     players := some room.players,
                     roundEndTime := some roundEndTime },
                 Emit.wordPrompt drawerId word])
      | _, _ => (st, [])

/-- `handleDoodleGuess(socket, user, room, text, gameState)` (lines
690-732). -/
def handleDoodleGuess (sid : String) (user : User) (room : String)
    (text : String) (st : ServerState) : ServerState × List Emit :=
  match lookupA st.gameStates room with
  | none => (st, [])
  | some gameState =>
    let drawerId := (gameState.drawer.map (·.id)).getD ""
    if sid == drawerId then
      (st, [Emit.rateLimit sid "You cannot chat while drawing."])
    else if jsToLower (jsTrim text) == jsToLower (gameState.word.getD "") then
      let st1 := clearTimeoutS st gameState.roundTimer
      let scores1 := setA gameState.scores sid
        ((lookupA gameState.scores sid).getD 0 + 2)
      let scores2 :=
        if (lookupA st.users drawerId).isSome then
          setA scores1 drawerId ((lookupA scores1 drawerId).getD 0 + 1)
        else scores1
      let gs1 := { gameState with scores := scores2 }
      let st2 := { st1 with gameStates := setA st1.gameStates room gs1 }
      let e1 := Emit.correctGuess room user.id (gameState.word.getD "")
      match scores2.find? (fun q => decide (WINNING_SCORE ≤ q.2)) with
      | some w =>
        if (lookupA st.users w.1).isSome then
          let st3 := { st2 with
            activeGameRooms := eraseA st2.activeGameRooms room,
            gameStates := eraseA st2.gameStates room }
          (st3, [e1, Emit.gameOver room w.1 scores2,
                 Emit.roomsList (getPublicRoomList st3)])
        else
          let p := setTimeoutS st2 (TimerTask.doodleNext room)
          (p.1, [e1])
      | none =>
        let p := setTimeoutS st2 (TimerTask.doodleNext room)
        (p.1, [e1])
    else
      (st, [Emit.chatToRoom room (some user.id) user.name text])

/-- `handlePlayerLeave(socketId, roomId)` (lines 132-205).  `rnd` is the
word oracle handed to `startNewDoodleRound` when the drawer left. -/
def handlePlayerLeave (rnd : Nat) (socketId roomId : String)
    (st : ServerState) : ServerState × List Emit :=
  match lookupA st.activeGameRooms roomId with
  | none => (st, [])
  | some room =>
    match findIndexA (fun p => p.id == socketId) room.players with
    | none => (st, [])
    | some playerIndex =>
      let departingPlayer := room.players.getD playerIndex default
      let players1 := room.players.eraseIdx playerIndex
      let room1 : Room := { room with players := players1 }
      let st0 := { st with activeGameRooms := setA st.activeGameRooms roomId room1 }
      let e0 := Emit.chatToRoom roomId none "System"
        (departingPlayer.name ++ " has left the game.")
      let gameState? := lookupA st.gameStates roomId
      if players1.length < 2 then
        let st1 :=
          match gameState? with
          | some gs =>
            if gs.isRoundActive then
              clearTimeoutS (clearTimeoutS st0 gs.roundTimer) gs.turnTimer
            else st0
          | none => st0
        let endE :=
          match gameState? with
          | some gs =>
            if gs.isRoundActive then
              [Emit.gameMessageRoom roomId "Not enough players. The game has ended.",
               Emit.gameTerminated roomId "Not enough players to continue."]
            else []
          | none => []
        let st2 := { st1 with
          activeGameRooms := eraseA st1.activeGameRooms roomId,
          gameStates := eraseA st1.gameStates roomId }
        (st2, e0 :: endE ++ [Emit.roomsList (getPublicRoomList st2)])
      else
        let hostPair :=
          if room.creatorId == socketId then
            let nh := players1.getD 0 default
            ({ room1 with creatorId := nh.id, creatorName := nh.name },
             [Emit.gameMessageRoom roomId (nh.name ++ " is the new host.")])
          else (room1, ([] : List Emit))
        let room2 := hostPair.1
        let st1 := { st0 with activeGameRooms := setA st0.activeGameRooms roomId room2 }
        let roundPair :=
          match gameState? with
          | some gs =>
            if gs.isRoundActive then
              if room.gameType == "doodle"
                  && ((gs.drawer.map (fun u : User => u.id)).getD "") == socketId then
                let stc := clearTimeoutS st1 gs.roundTimer
                let q := startNewDoodleRound (players1.length + 1) rnd roomId stc
                (q.1, Emit.gameMessageRoom roomId
                        "The drawer left. Starting a new round." :: q.2)
              else if room.gameType == "hangman"
                  && gs.currentPlayerTurn == some socketId then
                ({ st1 with
                   activeGameRooms := eraseA st1.activeGameRooms roomId,
                   gameStates := eraseA st1.gameStates roomId },
                 [Emit.gameMessageRoom roomId "A player left. The Hangman game has ended.",
                  Emit.gameTerminated roomId "A player left, ending the game."])
              else (st1, ([] : List Emit))
            else (st1, ([] : List Emit))
          | none => (st1, ([] : List Emit))
        let st2 := roundPair.1
        let stateE :=
          match gameState? with
          | some gsOld =>
            -- the source re-emits the live game-state object; it may have
            -- been mutated by the nested round start, or removed from the
            -- registry (the local reference then still sees its contents)
            let gsNow := (lookupA st2.gameStates roomId).getD gsOld
            [Emit.gameStateRoom roomId
              { gsPayload gsNow with players := some room2.players,
                                     creatorId := some room2.creatorId }]
          | none => []
        (st2, e0 :: hostPair.2 ++ roundPair.2 ++ stateE
                ++ [Emit.roomsList (getPublicRoomList st2)])

/-- `setHangmanTurnTimer(roomId)` (lines 924-940). -/
def setHangmanTurnTimer (roomId : String) (st : ServerState) :
    ServerState × List Emit :=
  match lookupA st.gameStates roomId with
  | none => (st, [])
  | some gameState =>
    if !gameState.isRoundActive then (st, [])
    else
      let st1 := clearTimeoutS st gameState.turnTimer
      let turnEndTime := st.time + HANGMAN_TURN_TIME
      let p := setTimeoutS st1 (TimerTask.hangmanTurn roomId)
      let gs1 : GameState := { gameState with
        turnEndTime := some turnEndTime, turnTimer := some p.2 }
      let st3 := { p.1 with gameStates := setA p.1.gameStates roomId gs1 }
      (st3, [Emit.gameStateRoom roomId (getSerializableGameState gs1)])

/-- `startNewHangmanRound(roomId)` (lines 803-843).  `rnd` picks the word,
`rnd2` the starting player when there is no previous winner. -/
def startNewHangmanRound (rnd rnd2 : Nat) (roomId : String)
    (st : ServerState) : ServerState × List Emit :=
  let room? := lookupA st.activeGameRooms roomId
  let gameState? := lookupA st.gameStates roomId
  if room?.isNone || gameState?.isNone
      || room?.elim true (fun r => r.players.length < 2) then
    let st1 :=
      match room? with
      | some r =>
        let r1 := { r with inProgress := false }
        { st with activeGameRooms := setA st.activeGameRooms roomId r1 }
      | none => st
    (st1, [Emit.gameEnd roomId "Not enough players. Game over.",
           Emit.roomsList (getPublicRoomList st1)])
  else
    match room?, gameState? with
    | some room, some gameState =>
      let word := HANGMAN_WORDS.getD (rnd % HANGMAN_WORDS.length) ""
      let currentPlayerIndex : Int :=
        match gameState.lastWinnerIndex with
        | some i => (i + 1).tmod 2
        | none => ((rnd2 % 2 : Nat) : Int)
      let gs1 : GameState := { gameState with
        word := some (jsToLower word),
        displayWord := word.data.map (fun c => if c == ' ' then " " else "_"),
        incorrectGuesses := [],
        correctGuesses := if word.data.contains ' ' then [" "] else [],
        isRoundActive := true, isGameOver := false, winner := none,
        currentPlayerIndex := currentPlayerIndex,
        currentPlayerTurn :=
          some (room.players.getD currentPlayerIndex.toNat default).id }
      let st1 := { st with gameStates := setA st.gameStates roomId gs1 }
      let q := setHangmanTurnTimer roomId st1
      let gsNow := (lookupA q.1.gameStates roomId).getD gs1
      (q.1, Emit.gameNewRound roomId :: q.2
        ++ [Emit.gameStateRoom roomId
             { getSerializableGameState gsNow with
               players := some room.players,
               creatorId := some room.creatorId }])
    | _, _ => (st, [])

/-- `handleHangmanTimeout(roomId)` (lines 942-980). -/
def handleHangmanTimeout (roomId : String) (st : ServerState) :
    ServerState × List Emit :=
  match lookupA st.gameStates roomId with
  | none => (st, [])
  | some gameState =>
    if !gameState.isRoundActive then (st, [])
    else
      let timedOutName :=
        ((lookupA st.users (gameState.currentPlayerTurn.getD "")).map
          (·.name)).getD "Player"
      let e0 := Emit.chatToRoom roomId none "System" (timedOutName ++ "'s turn timed out.")
      let gs1 : GameState := { gameState with
        incorrectGuesses := gameState.incorrectGuesses ++ [" "] }
      if MAX_INCORRECT_GUESSES ≤ gs1.incorrectGuesses.length then
        let gs2 : GameState := { gs1 with
          isRoundActive := false, isGameOver := true,
          lastWinnerIndex := some ((gs1.currentPlayerIndex + 1).tmod 2) }
        let st1 := { st with gameStates := setA st.gameStates roomId gs2 }
        let p := setTimeoutS st1 (TimerTask.hangmanNext roomId)
        (p.1, [e0,
               Emit.gameMessageRoom roomId
                 ("Game over! The word was \x22" ++ gameState.word.getD "" ++ "\x22."),
               Emit.gameStateRoom roomId (getSerializableGameState gs2)])
      else
        match lookupA st.activeGameRooms roomId with
        | none =>
          -- unreachable operationally: a room and its game state are always
          -- deleted together; the source would throw here
          (st, [e0])
        | some currentRoom =>
          let idx := (gs1.currentPlayerIndex + 1).tmod (currentRoom.players.length : Int)
          let gs2 : GameState := { gs1 with
            currentPlayerIndex := idx,
            currentPlayerTurn :=
              some (currentRoom.players.getD idx.toNat default).id }
          let st1 := { st with gameStates := setA st.gameStates roomId gs2 }
          let q := setHangmanTurnTimer roomId st1
          let gsNow := (lookupA q.1.gameStates roomId).getD gs2
          (q.1, e0 :: q.2
            ++ [Emit.gameStateRoom roomId (getSerializableGameState gsNow)])

/-- `handleHangmanGuess(socket, user, room, letter, gameState)` (lines
845-922).  The miss-without-loss branch of the source reads the undefined
name `roomId` and therefore throws; mutations made before that point
persist and the remaining statements are skipped, which is what the model
returns there. -/
def handleHangmanGuess (sid : String) (user : User) (room letter : String)
    (st : ServerState) : ServerState × List Emit :=
  match lookupA st.gameStates room with
  | none => (st, [])
  | some gameState =>
    let st0 := clearTimeoutS st gameState.turnTimer
    let cleaned := jsToLower (jsTrim letter)
    if cleaned.data.length != 1
        || !(cleaned.data.all (fun c => 97 ≤ c.toNat && c.toNat ≤ 122)) then
      let q := setHangmanTurnTimer room st0
      (q.1, Emit.rateLimit sid "Please guess a single letter." :: q.2)
    else if gameState.correctGuesses.contains cleaned
        || gameState.incorrectGuesses.contains cleaned then
      let q := setHangmanTurnTimer room st0
      (q.1, Emit.rateLimit sid ("You already guessed " ++ cleaned ++ ".") :: q.2)
    else
      let word := gameState.word.getD ""
      let isCorrect := word.data.contains (cleaned.data.getD 0 default)
      let guessPair :=
        if isCorrect then
          let cg := gameState.correctGuesses ++ [cleaned]
          (({ gameState with
              correctGuesses := cg,
              displayWord := word.data.map (fun ch =>
                if cg.contains ⟨[ch]⟩ then (⟨[ch]⟩ : String) else "_") } : GameState),
           Emit.chatToRoom room none "System"
             (user.name ++ " guessed a correct letter: " ++ cleaned))
        else
          (({ gameState with
              incorrectGuesses := gameState.incorrectGuesses ++ [cleaned] } : GameState),
           Emit.chatToRoom room none "System"
             (user.name ++ " guessed an incorrect letter: " ++ cleaned))
      let gs1 := guessPair.1
      let e1 := guessPair.2
      let won := !gs1.displayWord.contains "_"
      let lost := MAX_INCORRECT_GUESSES ≤ gs1.incorrectGuesses.length
      if won || lost then
        let gs2 : GameState := { gs1 with
          isRoundActive := false, isGameOver := true,
          winner := if won then some user else none,
          lastWinnerIndex :=
            some (if won then gs1.currentPlayerIndex
                  else (gs1.currentPlayerIndex + 1).tmod 2) }
        let st1 := { st0 with gameStates := setA st0.gameStates room gs2 }
        let p := setTimeoutS st1 (TimerTask.hangmanNext room)
        let msg :=
          if won then user.name ++ " won! The word was \x22" ++ word ++ "\x22."
          else "Game over! The word was \x22" ++ word ++ "\x22."
        (p.1, [e1, Emit.gameMessageRoom room msg,
               Emit.gameStateRoom room (getSerializableGameState gs2)])
      else if !isCorrect then
        -- ReferenceError in the source: stop after the bookkeeping above
        let st1 := { st0 with gameStates := setA st0.gameStates room gs1 }
        (st1, [e1])
      else
        let st1 := { st0 with gameStates := setA st0.gameStates room gs1 }
        let q := setHangmanTurnTimer room st1
        let gsNow := (lookupA q.1.gameStates room).getD gs1
        (q.1, e1 :: q.2
          ++ [Emit.gameStateRoom room (getSerializableGameState gsNow)])

/-- The ordinary chat-relay tail of the `chat message` handler (lines
275-292): store and forward the trimmed text. -/
def relayChat (sid : String) (user : User) (room text : String)
    (st : ServerState) : ServerState × List Emit :=
  let entry := (sid, jsTrim text)
  let hist := (lookupA st.chatHistory room).getD [] ++ [entry]
  let st1 := { st with chatHistory := setA st.chatHistory room hist }
  (st1, [Emit.chatToRoom room (some sid) user.name (jsTrim text)])

/-- The `for (const roomId in activeGameRooms) handlePlayerLeave(...)` loop
of the disconnect handler. -/
def leaveAll (rnd : Nat) (sid : String) :
    List String → ServerState × List Emit → ServerState × List Emit
  | [], acc => acc
  | rid :: rest, acc =>
    let q := handlePlayerLeave rnd sid rid acc.1
    leaveAll rnd sid rest (q.1, acc.2 ++ q.2)

/-- Room-length-based recursion bound handed to `startNewDoodleRound`. -/
def roomFuel (st : ServerState) (roomId : String) : Nat :=
  (lookupA st.activeGameRooms roomId).elim 0 (fun r => r.players.length) + 1

/-- Run the callback of a timer task (the bodies of the `setTimeout`
closures).  `rnd` is the word oracle for round starts. -/
def runTask (rnd : Nat) (t : TimerTask) (st : ServerState) :
    ServerState × List Emit :=
  match t with
  | TimerTask.doodleRound rid w =>
    -- lines 780-783: announce the word, then schedule the next round; no
    -- staleness check of any kind
    let p := setTimeoutS st (TimerTask.doodleNext rid)
    (p.1, [Emit.gameMessageRoom rid ("Time's up! The word was '" ++ w ++ "'.")])
  | TimerTask.doodleNext rid => startNewDoodleRound (roomFuel st rid) rnd rid st
  | TimerTask.hangmanTurn rid => handleHangmanTimeout rid st
  | TimerTask.hangmanNext rid => startNewHangmanRound rnd rnd rid st

/-- An inbound event of the game core (§6 of the specification).  Random
choices made while handling the event are carried as oracle fields. -/
inductive Op where
  | userInfo (sid nickname gender : String) (age : Nat)
  | gameCreate (sid : String) (roomName password gameType : Option String)
  | gameJoin (sid roomId : String) (password : Option String)
  | gameLeave (sid roomId : String) (rnd : Nat)
  | gameStart (sid roomId : String) (rnd rnd2 : Nat)
  | gameStop (sid roomId : String)
  | chatMessage (sid room text : String)
  | hangmanGuess (sid room letter : String)
  | gameDraw (sid room : String) (data : Nat)
  | clearCanvasOp (sid room : String)
  | fireTimer (tid rnd : Nat)
  | disconnect (sid : String) (rnd : Nat)
deriving DecidableEq, Repr

/-- One step of the single-threaded event loop: dispatch an inbound event
to its socket handler (the `io.on("connection")` body). -/
def step (op : Op) (st : ServerState) : ServerState × List Emit :=
  match op with
  | Op.userInfo sid nickname gender age =>
    if (jsTrim nickname).data.length == 0 || 20 < nickname.data.length then (st, [])
    else
      let u : User := { id := sid, name := jsTrim nickname, gender := gender, age := age }
      let st1 := { st with users := setA st.users sid u }
      (st1, [Emit.userList (st1.users.map (fun p => p.2.name))])
  | Op.gameCreate sid roomName password gameType =>
    match lookupA st.users sid with
    | none => (st, [])
    | some user =>
      let roomId := "game-" ++ toString st.nextUuid
      let newRoom : Room := {
        id := roomId,
        name := roomName.getD (user.name ++ "'s Room"),
        creatorId := sid, creatorName := user.name,
        players := [user], password := password,
        inProgress := false, gameType := gameType.getD "doodle" }
      let st1 := { st with
        activeGameRooms := setA st.activeGameRooms roomId newRoom,
        nextUuid := st.nextUuid + 1 }
      (st1, [Emit.joined sid roomId,
             Emit.roomsList (getPublicRoomList st1),
             Emit.gameStateRoom roomId
               { gameType := some newRoom.gameType,
                 players := some newRoom.players,
                 creatorId := some newRoom.creatorId,
                 isRoundActive := some false, scores := some [] }])
  | Op.gameJoin sid roomId password =>
    match lookupA st.users sid, lookupA st.activeGameRooms roomId with
    | some user, some room =>
      if room.inProgress then
        (st, [Emit.joinError sid "This game is already in progress."])
      else if room.password.isSome && room.password != password then
        (st, [Emit.joinError sid "Incorrect password."])
      else if room.players.any (fun p => p.id == user.id) then (st, [])
      else if room.gameType == "hangman" && 2 ≤ room.players.length then
        (st, [Emit.joinError sid "This Hangman room is full (2 players max)."])
      else
        let room1 : Room := { room with players := room.players ++ [user] }
        let st1 := { st with activeGameRooms := setA st.activeGameRooms roomId room1 }
        let gameState? := lookupA st1.gameStates roomId
        let basePayload := (gameState?.map gsPayload).getD {}
        let historyE :=
          match gameState? with
          | some gs =>
            if gs.isRoundActive then [Emit.drawingHistory sid gs.drawingHistory] else []
          | none => []
        (st1, [Emit.joined sid roomId,
               Emit.chatToRoom roomId none "System" (user.name ++ " has joined the game!"),
               Emit.gameStateRoom roomId
                 { basePayload with
                   gameType := some room.gameType,
                   players := some room1.players,
                   creatorId := some room.creatorId,
                   isRoundActive := some (gameState?.elim false (fun g => g.isRoundActive)) }]
              ++ historyE ++ [Emit.roomsList (getPublicRoomList st1)])
    | _, _ => (st, [])
  | Op.gameLeave sid roomId rnd => handlePlayerLeave rnd sid roomId st
  | Op.gameStart sid roomId rnd rnd2 =>
    match lookupA st.activeGameRooms roomId, lookupA st.users sid with
    | some room, some user =>
      if user.id != room.creatorId then (st, [])
      else if room.gameType == "hangman" && room.players.length != 2 then
        (st, [Emit.gameMessageSocket sid "Hangman requires exactly 2 players to start."])
      else if room.gameType == "doodle" && room.players.length < 2 then
        (st, [Emit.gameMessageSocket sid "Doodle Dash requires at least 2 players to start."])
      else
        let room1 : Room := { room with inProgress := true }
        let st1 := { st with activeGameRooms := setA st.activeGameRooms roomId room1 }
        if room.gameType == "doodle" then
          let gs : GameState := {
            gameType := "doodle",
            players := room.players.map (fun p : User => p.id),
            scores := room.players.map (fun p : User => (p.id, (0 : Int))),
            isRoundActive := false,
            creatorId := room.creatorId,
            currentPlayerIndex := -1,
            drawingHistory := [], usedWords := [] }
          let st2 := { st1 with gameStates := setA st1.gameStates roomId gs }
          let q := startNewDoodleRound (room.players.length + 1) rnd roomId st2
          (q.1, q.2 ++ [Emit.roomsList (getPublicRoomList q.1)])
        else if room.gameType == "hangman" then
          let gs : GameState := {
            gameType := "hangman",
            players := room.players.map (fun p : User => p.id),
            isRoundActive := false,
            creatorId := room.creatorId }
          let st2 := { st1 with gameStates := setA st1.gameStates roomId gs }
          let q := startNewHangmanRound rnd rnd2 roomId st2
          (q.1, q.2 ++ [Emit.roomsList (getPublicRoomList q.1)])
        else
          (st1, [Emit.roomsList (getPublicRoomList st1)])
    | _, _ => (st, [])
  | Op.gameStop sid roomId =>
    match lookupA st.activeGameRooms roomId, lookupA st.users sid with
    | some room, some user =>
      if user.id != room.creatorId then (st, [])
      else
        let st1 := { st with
          activeGameRooms := eraseA st.activeGameRooms roomId,
          gameStates := eraseA st.gameStates roomId }
        (st1, [Emit.gameTerminated roomId "The host has terminated the game.",
               Emit.roomsList (getPublicRoomList st1)])
    | _, _ => (st, [])
  | Op.chatMessage sid room text =>
    match lookupA st.users sid with
    | none => (st, [])
    | some user =>
      if (jsTrim text).data.length == 0 || 500 < text.data.length then (st, [])
      else
        let filtered := ((lookupA st.userMessageTimestamps sid).getD []).filter
          (fun ts => st.time - ts < RATE_LIMIT_SECONDS * 1000)
        let st1 := { st with
          userMessageTimestamps := setA st.userMessageTimestamps sid filtered }
        if RATE_LIMIT_COUNT ≤ filtered.length then
          (st1, [Emit.rateLimit sid "You are sending messages too quickly."])
        else
          let stamps2 := setA st1.userMessageTimestamps sid (filtered ++ [st.time])
          let st2 := { st1 with userMessageTimestamps := stamps2 }
          let isDoodleGuess :=
            match lookupA st2.gameStates room, lookupA st2.activeGameRooms room with
            | some gameState, some roomData =>
              gameState.isRoundActive && roomData.gameType == "doodle"
            | _, _ => false
          if isDoodleGuess then handleDoodleGuess sid user room text st2
          else relayChat sid user room text st2
  | Op.hangmanGuess sid room letter =>
    match lookupA st.users sid, lookupA st.gameStates room with
    | some user, some gameState =>
      if !gameState.isRoundActive || gameState.gameType != "hangman" then (st, [])
      else if gameState.currentPlayerTurn != some sid then
        (st, [Emit.rateLimit sid "It's not your turn to guess."])
      else handleHangmanGuess sid user room letter st
    | _, _ => (st, [])
  | Op.gameDraw sid room data =>
    match lookupA st.gameStates room with
    | none => (st, [])
    | some gameState =>
      if gameState.isRoundActive
          && sid == ((gameState.drawer.map (fun u : User => u.id)).getD "") then
        let gs1 : GameState := { gameState with
          drawingHistory := gameState.drawingHistory ++ [data] }
        let st1 := { st with gameStates := setA st.gameStates room gs1 }
        (st1, [Emit.drawRelay room sid data])
      else (st, [])
  | Op.clearCanvasOp sid room =>
    match lookupA st.gameStates room with
    | none => (st, [])
    | some gameState =>
      if ((gameState.drawer.map (fun u : User => u.id)).getD "") == sid then
        let gs1 : GameState := { gameState with drawingHistory := ([] : List Nat) }
        let st1 := { st with gameStates := setA st.gameStates room gs1 }
        (st1, [Emit.clearCanvas room])
      else (st, [])
  | Op.fireTimer tid rnd =>
    match st.pendingTimers.find? (fun p => p.1 == tid) with
    | none => (st, [])
    | some pt =>
      let st1 := { st with pendingTimers := st.pendingTimers.filter (fun p => p.1 != tid) }
      runTask rnd pt.2 st1
  | Op.disconnect sid rnd =>
    let base :=
      match lookupA st.users sid with
      | some _ =>
        leaveAll rnd sid (st.activeGameRooms.map (fun p : String × Room => p.1))
          (st, ([] : List Emit))
      | none => (st, ([] : List Emit))
    let st2 := { base.1 with
      users := eraseA base.1.users sid,
      userMessageTimestamps := eraseA base.1.userMessageTimestamps sid }
    (st2, base.2 ++ [Emit.userList (st2.users.map (fun p => p.2.name))])

/-- Run a sequence of inbound events from a state, collecting emissions. -/
def runOps (ops : List Op) (st : ServerState) : ServerState × List Emit :=
  ops.foldl
    (fun (acc : ServerState × List Emit) op =>
      let q := step op acc.1
      (q.1, acc.2 ++ q.2))
    (st, ([] : List Emit))

/-- The states visited by a sequence of inbound events (initial state
included). -/
def statesOf (ops : List Op) (st : ServerState) : List ServerState :=
  ops.foldl
    (fun (acc : List ServerState × ServerState) op =>
      let st' := (step op acc.2).1
      (acc.1 ++ [st'], st'))
    ([st], st) |>.1

-- BASIC LEMMAS about the association-list operations

lemma lookupA_setA_self {α : Type} (l : List (String × α)) (k : String) (v : α) :
    lookupA (setA l k v) k = some v := by
  induction l with
  | nil => simp [setA, lookupA]
  | cons p ps ih =>
    by_cases h : p.1 = k
    · simp [setA, lookupA, h]
    · simp [setA, lookupA, h, ih]

lemma lookupA_setA_ne {α : Type} (l : List (String × α)) (k k' : String) (v : α)
    (h : k' ≠ k) : lookupA (setA l k v) k' = lookupA l k' := by
  induction l with
  | nil => simp [setA, lookupA, Ne.symm h]
  | cons p ps ih =>
    by_cases hp : p.1 = k
    · by_cases hp' : p.1 = k' <;> simp_all [setA, lookupA]
    · by_cases hp' : p.1 = k' <;> simp_all [setA, lookupA]

lemma lookupA_eraseA_self {α : Type} (l : List (String × α)) (k : String) :
    lookupA (eraseA l k) k = none := by
  induction l with
  | nil => simp [eraseA, lookupA]
  | cons p ps ih =>
    by_cases h : p.1 = k <;> simp [eraseA, lookupA, h, ih]

lemma lookupA_eraseA_ne {α : Type} (l : List (String × α)) (k k' : String)
    (h : k' ≠ k) : lookupA (eraseA l k) k' = lookupA l k' := by
  induction l with
  | nil => simp [eraseA, lookupA]
  | cons p ps ih =>
    by_cases hp : p.1 = k
    · have : ¬ p.1 = k' := by rw [hp]; exact fun e => h e.symm
      simp_all [eraseA, lookupA]
    · by_cases hp' : p.1 = k' <;> simp_all [eraseA, lookupA]

lemma mem_setA {α : Type} {l : List (String × α)} {k : String} {v : α}
    {q : String × α} (h : q ∈ setA l k v) : q ∈ l ∨ q = (k, v) := by
  induction l with
  | nil => simpa [setA] using h
  | cons p ps ih =>
    by_cases hp : p.1 = k
    · simp only [setA, hp, beq_self_eq_true, if_pos] at h
      rcases List.mem_cons.mp h with h1 | h1
      · right; exact h1
      · left; exact List.mem_cons_of_mem _ h1
    · simp only [setA, beq_iff_eq, hp, if_neg, not_false_iff] at h
      rcases List.mem_cons.mp h with h1 | h1
      · left; exact h1 ▸ List.mem_cons_self _ _
      · rcases ih h1 with h2 | h2
        · left; exact List.mem_cons_of_mem _ h2
        · right; exact h2

lemma mem_eraseA {α : Type} {l : List (String × α)} {k : String}
    {q : String × α} (h : q ∈ eraseA l k) : q ∈ l ∧ q.1 ≠ k := by
  induction l with
  | nil => simp [eraseA] at h
  | cons p ps ih =>
    by_cases hp : p.1 = k
    · simp only [eraseA, hp, beq_self_eq_true, if_pos] at h
      exact ⟨List.mem_cons_of_mem _ (ih h).1, (ih h).2⟩
    · simp only [eraseA, beq_iff_eq, hp, if_neg, not_false_iff] at h
      rcases List.mem_cons.mp h with h1 | h1
      · exact ⟨h1 ▸ List.mem_cons_self _ _, h1 ▸ hp⟩
      · exact ⟨List.mem_cons_of_mem _ (ih h1).1, (ih h1).2⟩

lemma lookupA_mem {α : Type} {l : List (String × α)} {k : String} {v : α}
    (h : lookupA l k = some v) : (k, v) ∈ l := by
  induction l with
  | nil => simp [lookupA] at h
  | cons p ps ih =>
    by_cases hp : p.1 = k
    · simp only [lookupA, hp, beq_self_eq_true, if_pos, Option.some.injEq] at h
      have : p = (k, v) := Prod.ext hp h
      exact this ▸ List.mem_cons_self _ _
    · simp only [lookupA, beq_iff_eq, hp, if_neg, not_false_iff] at h
      exact List.mem_cons_of_mem _ (ih h)

lemma findIndexA_get? {α : Type} (p : α → Bool) :
    ∀ (l : List α) (i : Nat), findIndexA p l = some i →
      ∃ a, l.get? i = some a ∧ p a = true := by
  intro l
  induction l with
  | nil => intro i h; simp [findIndexA] at h
  | cons a as ih =>
    intro i h
    by_cases hp : p a
    · simp only [findIndexA, hp, if_pos, Option.some.injEq] at h
      exact ⟨a, by simp [← h], hp⟩
    · simp only [findIndexA, hp, if_neg, not_false_iff, Bool.false_eq_true,
        Option.map_eq_some'] at h
      rcases h with ⟨j, hj, hij⟩
      rcases ih j hj with ⟨b, hb, hpb⟩
      exact ⟨b, by simpa [← hij] using hb, hpb⟩

lemma mem_map_eraseIdx {α β : Type} (f : α → β) :
    ∀ (l : List α) (i : Nat) (x : β), x ∈ l.map f →
      (∀ a, l.get? i = some a → f a ≠ x) → x ∈ (l.eraseIdx i).map f := by
  intro l
  induction l with
  | nil => intro i x hx _; simp at hx
  | cons a as ih =>
    intro i x hx hi
    cases i with
    | zero =>
      have hne : f a ≠ x := hi a (by simp)
      rcases List.mem_map.mp hx with ⟨b, hb, hfb⟩
      rcases List.mem_cons.mp hb with h1 | h1
      · exact absurd (h1 ▸ hfb) hne
      · simpa [List.eraseIdx] using List.mem_map.mpr ⟨b, h1, hfb⟩
    | succ j =>
      rcases List.mem_map.mp hx with ⟨b, hb, hfb⟩
      rcases List.mem_cons.mp hb with h1 | h1
      · simp [List.eraseIdx, ← hfb, h1]
      · by_cases hbx : f a = x
        · simp [List.eraseIdx, hbx]
        · have : x ∈ (as.eraseIdx j).map f :=
            ih j x (List.mem_map.mpr ⟨b, h1, hfb⟩) (fun c hc => hi c (by simpa using hc))
          simp [List.eraseIdx]
          rcases List.mem_map.mp this with ⟨c, hc, hfc⟩
          exact Or.inr ⟨c, hc, hfc⟩

lemma tmod_toNat_lt (x : Int) (n : Nat) (hx : 0 ≤ x) (hn : 0 < n) :
    (x.tmod (n : Int)).toNat < n := by
  have hne : (n : Int) ≠ 0 := by exact_mod_cast hn.ne'
  have h1 : x.tmod (n : Int) = x % (n : Int) := Int.tmod_eq_emod hx (by positivity)
  have h2 : x % (n : Int) < (n : Int) := Int.emod_lt_of_pos x (by exact_mod_cast hn)
  have h3 : 0 ≤ x % (n : Int) := Int.emod_nonneg x hne
  omega

-- INVARIANTS named by the specification

/-- Every user record is registered under its own id (`users[socket.id] =
{ id: socket.id, ... }`). -/
def UsersIdInv (st : ServerState) : Prop :=
  ∀ p ∈ st.users, p.2.id = p.1

/-- Every room is registered under its own id. -/
def RoomIdInv (st : ServerState) : Prop :=
  ∀ p ∈ st.activeGameRooms, p.2.id = p.1

/-- The at-most-one-host invariant of the specification: the host id of
every registered room is the id of a current member. -/
def HostInv (st : ServerState) : Prop :=
  ∀ p ∈ st.activeGameRooms, p.2.creatorId ∈ p.2.players.map User.id

/-- The turn-cursor invariant claimed by the specification, as a decidable
check: for every room with `inProgress` and a game state, the cursor is a
valid index into the state's player-order list, and every id in that list
is a currently-connected member of the room. -/
def turnCursorInvCheck (st : ServerState) : Bool :=
  st.activeGameRooms.all (fun p =>
    !p.2.inProgress ||
    (match lookupA st.gameStates p.1 with
     | none => true
     | some gs =>
       decide (gs.currentPlayerIndex.toNat < gs.players.length) &&
       gs.players.all (fun pid =>
         p.2.players.any (fun u => u.id == pid) &&
         (lookupA st.users pid).isSome)))

-- FIELD-PRESERVATION LEMMAS for the engine functions

lemma users_clearTimeoutS (st : ServerState) (h : Option Nat) :
    (clearTimeoutS st h).users = st.users := by
  cases h <;> rfl

lemma rooms_clearTimeoutS (st : ServerState) (h : Option Nat) :
    (clearTimeoutS st h).activeGameRooms = st.activeGameRooms := by
  cases h <;> rfl

lemma gameStates_clearTimeoutS (st : ServerState) (h : Option Nat) :
    (clearTimeoutS st h).gameStates = st.gameStates := by
  cases h <;> rfl

lemma pendingTimers_clearTimeoutS_subset (st : ServerState) (h : Option Nat)
    {q : Nat × TimerTask} (hq : q ∈ (clearTimeoutS st h).pendingTimers) :
    q ∈ st.pendingTimers := by
  cases h with
  | none => exact hq
  | some i => exact (List.mem_filter.mp hq).1

lemma notMem_clearTimeoutS_self (st : ServerState) (i : Nat)
    (t : TimerTask) : (i, t) ∉ (clearTimeoutS st (some i)).pendingTimers := by
  intro hq
  have := (List.mem_filter.mp hq).2
  simp at this

lemma users_setTimeoutS (st : ServerState) (t : TimerTask) :
    (setTimeoutS st t).1.users = st.users := rfl

lemma rooms_setTimeoutS (st : ServerState) (t : TimerTask) :
    (setTimeoutS st t).1.activeGameRooms = st.activeGameRooms := rfl

lemma gameStates_setTimeoutS (st : ServerState) (t : TimerTask) :
    (setTimeoutS st t).1.gameStates = st.gameStates := rfl

lemma users_startNewDoodleRound (fuel : Nat) : ∀ (rnd : Nat) (rid : String)
    (st : ServerState), (startNewDoodleRound fuel rnd rid st).1.users = st.users := by
  induction fuel with
  | zero => intro rnd rid st; rfl
  | succ n ih =>
    intro rnd rid st
    simp only [startNewDoodleRound]
    repeat' split
    all_goals
      simp_all [users_clearTimeoutS, users_setTimeoutS, setTimeoutS, clearTimeoutS]
    all_goals
      repeat' split
    all_goals rfl

lemma users_handleDoodleGuess (sid : String) (user : User) (room text : String)
    (st : ServerState) :
    (handleDoodleGuess sid user room text st).1.users = st.users := by
  simp only [handleDoodleGuess]
  repeat' split
  all_goals
    simp_all [users_clearTimeoutS, users_setTimeoutS, setTimeoutS, clearTimeoutS]
  all_goals
    repeat' split
  all_goals rfl

lemma users_setHangmanTurnTimer (rid : String) (st : ServerState) :
    (setHangmanTurnTimer rid st).1.users = st.users := by
  simp only [setHangmanTurnTimer]
  repeat' split
  all_goals
    simp_all [users_clearTimeoutS, users_setTimeoutS, setTimeoutS, clearTimeoutS]
  all_goals
    repeat' split
  all_goals rfl

lemma users_startNewHangmanRound (rnd rnd2 : Nat) (rid : String) (st : ServerState) :
    (startNewHangmanRound rnd rnd2 rid st).1.users = st.users := by
  simp only [startNewHangmanRound]
  repeat' split
  all_goals
    simp_all [users_setHangmanTurnTimer, setTimeoutS, clearTimeoutS]
  all_goals
    repeat' split
  all_goals rfl

lemma users_handleHangmanTimeout (rid : String) (st : ServerState) :
    (handleHangmanTimeout rid st).1.users = st.users := by
  simp only [handleHangmanTimeout]
  repeat' split
  all_goals
    simp_all [users_setHangmanTurnTimer, users_clearTimeoutS, users_setTimeoutS,
      setTimeoutS, clearTimeoutS]
  all_goals
    repeat' split
  all_goals rfl

lemma users_handleHangmanGuess (sid : String) (user : User) (room letter : String)
    (st : ServerState) :
    (handleHangmanGuess sid user room letter st).1.users = st.users := by
  simp only [handleHangmanGuess]
  repeat' split
  all_goals
    simp_all [users_setHangmanTurnTimer, users_clearTimeoutS, users_setTimeoutS,
      setTimeoutS, clearTimeoutS]
  all_goals
    repeat' split
  all_goals rfl

lemma users_relayChat (sid : String) (user : User) (room text : String)
    (st : ServerState) : (relayChat sid user room text st).1.users = st.users := rfl

lemma users_handlePlayerLeave (rnd : Nat) (sid rid : String) (st : ServerState) :
    (handlePlayerLeave rnd sid rid st).1.users = st.users := by
  simp only [handlePlayerLeave]
  repeat' split
  all_goals
    simp_all [users_startNewDoodleRound, users_clearTimeoutS, users_setTimeoutS,
      setTimeoutS, clearTimeoutS]
  all_goals
    repeat' split
  all_goals rfl

lemma users_runTask (rnd : Nat) (t : TimerTask) (st : ServerState) :
    (runTask rnd t st).1.users = st.users := by
  cases t <;>
    simp [runTask, users_startNewDoodleRound, users_startNewHangmanRound,
      users_handleHangmanTimeout, setTimeoutS]

lemma rooms_setHangmanTurnTimer (rid : String) (st : ServerState) :
    (setHangmanTurnTimer rid st).1.activeGameRooms = st.activeGameRooms := by
  simp only [setHangmanTurnTimer]
  repeat' split
  all_goals
    simp_all [rooms_clearTimeoutS, rooms_setTimeoutS, setTimeoutS, clearTimeoutS]
  all_goals
    repeat' split
  all_goals rfl

lemma rooms_handleHangmanTimeout (rid : String) (st : ServerState) :
    (handleHangmanTimeout rid st).1.activeGameRooms = st.activeGameRooms := by
  simp only [handleHangmanTimeout]
  repeat' split
  all_goals
    simp_all [rooms_setHangmanTurnTimer, rooms_clearTimeoutS, rooms_setTimeoutS,
      setTimeoutS, clearTimeoutS]
  all_goals
    repeat' split
  all_goals rfl

lemma rooms_handleHangmanGuess (sid : String) (user : User) (room letter : String)
    (st : ServerState) :
    (handleHangmanGuess sid user room letter st).1.activeGameRooms = st.activeGameRooms := by
  simp only [handleHangmanGuess]
  repeat' split
  all_goals
    simp_all [rooms_setHangmanTurnTimer, rooms_clearTimeoutS, rooms_setTimeoutS,
      setTimeoutS, clearTimeoutS]
  all_goals
    repeat' split
  all_goals rfl

/-- The round starters either leave the room directory untouched or lower
the `inProgress` flag of the room they were started for. -/
lemma rooms_startNewDoodleRound (fuel : Nat) : ∀ (rnd : Nat) (rid : String)
    (st : ServerState),
    (startNewDoodleRound fuel rnd rid st).1.activeGameRooms = st.activeGameRooms ∨
    ∃ r, lookupA st.activeGameRooms rid = some r ∧
      (startNewDoodleRound fuel rnd rid st).1.activeGameRooms
        = setA st.activeGameRooms rid { r with inProgress := false } := by
  induction fuel with
  | zero => intro rnd rid st; left; rfl
  | succ n ih =>
    intro rnd rid st
    simp only [startNewDoodleRound]
    repeat' split
    all_goals
      first
      | exact ih rnd rid _
      | (left; rfl)
      | (left; split <;> rfl)
      | (right; exact ⟨_, by assumption, rfl⟩)
      | (left;
         simp_all [rooms_clearTimeoutS, rooms_setTimeoutS, setTimeoutS, clearTimeoutS])

lemma rooms_startNewHangmanRound (rnd rnd2 : Nat) (rid : String)
    (st : ServerState) :
    (startNewHangmanRound rnd rnd2 rid st).1.activeGameRooms = st.activeGameRooms ∨
    ∃ r, lookupA st.activeGameRooms rid = some r ∧
      (startNewHangmanRound rnd rnd2 rid st).1.activeGameRooms
        = setA st.activeGameRooms rid { r with inProgress := false } := by
  simp only [startNewHangmanRound]
  repeat' split
  all_goals
    first
    | (left; rfl)
    | (right; exact ⟨_, by assumption, rfl⟩)
    | (left;
       simp_all [rooms_setHangmanTurnTimer, rooms_clearTimeoutS, rooms_setTimeoutS,
         setTimeoutS, clearTimeoutS])

lemma hostList_core {l : List (String × Room)} {k : String} {r r' : Room}
    {q : String × Room} (hq : q ∈ setA l k r')
    (h : ∀ p ∈ l, p.2.creatorId ∈ p.2.players.map User.id)
    (hk : lookupA l k = some r)
    (hcid : r'.creatorId = r.creatorId) (hpl : r'.players = r.players) :
    q.2.creatorId ∈ q.2.players.map User.id := by
  rcases mem_setA hq with h1 | h1
  · exact h q h1
  · rw [h1]
    simpa [hcid, hpl] using h (k, r) (lookupA_mem hk)

lemma hostInv_startNewDoodleRound (fuel rnd : Nat) (rid : String)
    (st : ServerState) (h : HostInv st) :
    HostInv (startNewDoodleRound fuel rnd rid st).1 := by
  rcases rooms_startNewDoodleRound fuel rnd rid st with hr | ⟨r, hlk, hr⟩
  · intro q hq; rw [hr] at hq; exact h q hq
  · intro q hq
    rw [hr] at hq
    exact hostList_core hq h hlk rfl rfl

lemma hostInv_startNewHangmanRound (rnd rnd2 : Nat) (rid : String)
    (st : ServerState) (h : HostInv st) :
    HostInv (startNewHangmanRound rnd rnd2 rid st).1 := by
  rcases rooms_startNewHangmanRound rnd rnd2 rid st with hr | ⟨r, hlk, hr⟩
  · intro q hq; rw [hr] at hq; exact h q hq
  · intro q hq
    rw [hr] at hq
    exact hostList_core hq h hlk rfl rfl

lemma setA_setA {α : Type} (l : List (String × α)) (k : String) (a b : α) :
    setA (setA l k a) k b = setA l k b := by
  induction l with
  | nil => simp [setA]
  | cons p ps ih =>
    by_cases hp : p.1 = k
    · simp [setA, hp]
    · simp [setA, hp, ih]

lemma rooms_handleDoodleGuess (sid : String) (user : User) (room text : String)
    (st : ServerState) :
    (handleDoodleGuess sid user room text st).1.activeGameRooms = st.activeGameRooms ∨
    (handleDoodleGuess sid user room text st).1.activeGameRooms
      = eraseA st.activeGameRooms room := by
  simp only [handleDoodleGuess]
  repeat' split
  all_goals
    first
    | (left; rfl)
    | (right; rfl)

lemma hostInv_handleDoodleGuess (sid : String) (user : User) (room text : String)
    (st : ServerState) (h : HostInv st) :
    HostInv (handleDoodleGuess sid user room text st).1 := by
  rcases rooms_handleDoodleGuess sid user room text st with hr | hr <;>
    intro q hq <;> rw [hr] at hq
  · exact h q hq
  · exact h q (mem_eraseA hq).1

/-- The re-elected host (the first remaining member) is a member. -/
lemma newHost_mem (l : List User) (hl : 2 ≤ l.length) :
    (l.getD 0 default).id ∈ l.map User.id := by
  cases l with
  | nil => simp at hl
  | cons a as => simp [List.getD]

/-- A departing non-host leaves the host a member. -/
lemma host_survives_erase (room : Room) (sid : String) (i : Nat)
    (hcr : room.creatorId ∈ room.players.map User.id)
    (hne : room.creatorId ≠ sid)
    (hidx : findIndexA (fun p => p.id == sid) room.players = some i) :
    room.creatorId ∈ (room.players.eraseIdx i).map User.id := by
  rcases findIndexA_get? _ room.players i hidx with ⟨a, ha, hpa⟩
  refine mem_map_eraseIdx User.id room.players i room.creatorId hcr ?_
  intro b hb
  rw [ha] at hb
  cases hb
  have : a.id = sid := by simpa using hpa
  rw [this]
  exact fun e => hne e.symm

lemma hostInv_handlePlayerLeave (rnd : Nat) (sid rid : String) (st : ServerState)
    (h : HostInv st) : HostInv (handlePlayerLeave rnd sid rid st).1 := by
  simp only [handlePlayerLeave]
  repeat' split
  all_goals try exact h
  all_goals try apply hostInv_startNewDoodleRound
  all_goals intro q hq
  all_goals try simp only [setA_setA] at hq
  all_goals
    first
    | exact h q hq
    | (rcases mem_setA (mem_eraseA hq).1 with h3 | h3
       · exact h q h3
       · exact absurd (by rw [h3]) (mem_eraseA hq).2)
    | (rcases mem_setA hq with h3 | h3
       · exact h q h3
       · rw [h3]
         first
         | exact newHost_mem _ (by first | omega | (simp only []; omega) | (simp_all; omega))
         | (refine host_survives_erase _ sid _ (h _ (lookupA_mem (by assumption)))
              ?_ (by assumption)
            intro e
            simp_all))

lemma users_leaveAll (rnd : Nat) (sid : String) : ∀ (rids : List String)
    (acc : ServerState × List Emit),
    (leaveAll rnd sid rids acc).1.users = acc.1.users := by
  intro rids
  induction rids with
  | nil => intro acc; rfl
  | cons rid rest ih =>
    intro acc
    simp only [leaveAll, ih, users_handlePlayerLeave]

lemma hostInv_leaveAll (rnd : Nat) (sid : String) : ∀ (rids : List String)
    (acc : ServerState × List Emit), HostInv acc.1 →
    HostInv (leaveAll rnd sid rids acc).1 := by
  intro rids
  induction rids with
  | nil => intro acc h; exact h
  | cons rid rest ih =>
    intro acc h
    exact ih _ (hostInv_handlePlayerLeave rnd sid rid acc.1 h)

lemma hostInv_runTask (rnd : Nat) (t : TimerTask) (st : ServerState)
    (h : HostInv st) : HostInv (runTask rnd t st).1 := by
  cases t with
  | doodleRound rid w => exact h
  | doodleNext rid => exact hostInv_startNewDoodleRound _ _ _ _ h
  | hangmanTurn rid =>
    intro q hq
    simp only [runTask] at hq
    rw [rooms_handleHangmanTimeout] at hq
    exact h q hq
  | hangmanNext rid => exact hostInv_startNewHangmanRound _ _ _ _ h

/-- Claim C6's preservation core: one step of the event loop keeps both the
id-keying of the user registry and the host-is-a-member invariant. -/
lemma inv_step (op : Op) (st : ServerState)
    (hu : UsersIdInv st) (hh : HostInv st) :
    UsersIdInv (step op st).1 ∧ HostInv (step op st).1 := by
  cases op with
  | userInfo sid nickname gender age =>
    simp only [step]
    split
    · exact ⟨hu, hh⟩
    · refine ⟨?_, hh⟩
      intro q hq
      rcases mem_setA hq with h1 | h1
      · exact hu q h1
      · rw [h1]
  | gameCreate sid roomName password gameType =>
    simp only [step]
    split
    · exact ⟨hu, hh⟩
    · refine ⟨hu, ?_⟩
      intro q hq
      rcases mem_setA hq with h1 | h1
      · exact hh q h1
      · rw [h1]
        simp only [List.map_cons, List.map_nil, List.mem_singleton]
        exact (hu _ (lookupA_mem (by assumption))).symm
  | gameJoin sid roomId password =>
    simp only [step]
    repeat' split
    all_goals refine ⟨hu, ?_⟩
    all_goals try exact hh
    all_goals intro q hq
    all_goals rcases mem_setA hq with h1 | h1
    all_goals try exact hh q h1
    all_goals rw [h1]
    all_goals
      simp only [List.map_append]
      exact List.mem_append_left _ (hh _ (lookupA_mem (by assumption)))
  | gameLeave sid roomId rnd =>
    refine ⟨?_, hostInv_handlePlayerLeave rnd sid roomId st hh⟩
    intro q hq
    rw [show (step (Op.gameLeave sid roomId rnd) st).1.users = st.users from
      users_handlePlayerLeave rnd sid roomId st] at hq
    exact hu q hq
  | gameStart sid roomId rnd rnd2 =>
    simp only [step]
    split
    all_goals try exact ⟨hu, hh⟩
    rename_i room user hroom husr
    repeat' split
    all_goals try exact ⟨hu, hh⟩
    all_goals
      constructor
    all_goals
      first
      | (intro q hq
         first
         | (rw [users_startNewDoodleRound] at hq; exact hu q hq)
         | (rw [users_startNewHangmanRound] at hq; exact hu q hq)
         | exact hu q hq)
      | (first
         | apply hostInv_startNewDoodleRound
         | apply hostInv_startNewHangmanRound
         | skip
         intro q hq
         exact hostList_core hq hh hroom rfl rfl)
  | gameStop sid roomId =>
    simp only [step]
    repeat' split
    all_goals refine ⟨hu, ?_⟩
    all_goals try exact hh
    all_goals intro q hq
    all_goals exact hh q (mem_eraseA hq).1
  | chatMessage sid room text =>
    simp only [step]
    repeat' split
    all_goals try exact ⟨hu, hh⟩
    all_goals
      first
      | (refine ⟨?_, hostInv_handleDoodleGuess _ _ _ _ _ hh⟩
         intro q hq
         rw [users_handleDoodleGuess] at hq
         exact hu q hq)
      | exact ⟨hu, hh⟩
  | hangmanGuess sid room letter =>
    simp only [step]
    repeat' split
    all_goals try exact ⟨hu, hh⟩
    all_goals
      refine ⟨?_, ?_⟩
    · intro q hq
      rw [users_handleHangmanGuess] at hq
      exact hu q hq
    · intro q hq
      rw [rooms_handleHangmanGuess] at hq
      exact hh q hq
  | gameDraw sid room data =>
    simp only [step]
    repeat' split
    all_goals exact ⟨hu, hh⟩
  | clearCanvasOp sid room =>
    simp only [step]
    repeat' split
    all_goals exact ⟨hu, hh⟩
  | fireTimer tid rnd =>
    simp only [step]
    repeat' split
    all_goals try exact ⟨hu, hh⟩
    refine ⟨?_, hostInv_runTask _ _ _ hh⟩
    intro q hq
    rw [users_runTask] at hq
    exact hu q hq
  | disconnect sid rnd =>
    simp only [step]
    refine ⟨?_, ?_⟩
    · intro q hq
      split at hq
      · rw [users_leaveAll] at hq
        exact hu q (mem_eraseA hq).1
      · exact hu q (mem_eraseA hq).1
    · split
      · exact hostInv_leaveAll rnd sid _ _ hh
      · exact hh

/-- Recognize a host re-election announcement (a `game:message` ending in
the fixed suffix of line 169) among the emissions. -/
def isHostAnnouncement (e : Emit) : Bool :=
  match e with
  | Emit.gameMessageRoom _ t =>
    t.data.reverse.take 17 == " is the new host.".data.reverse
  | _ => false

lemma data_append (s t : String) : (s ++ t).data = s.data ++ t.data := by
  cases s
  cases t
  rfl

lemma isHostAnnouncement_append (rid a : String) :
    isHostAnnouncement (Emit.gameMessageRoom rid (a ++ " is the new host.")) = true := by
  simp only [isHostAnnouncement, data_append, List.reverse_append]
  rw [show (17 : Nat) = (" is the new host.".data.reverse).length from by decide]
  rw [List.take_left]
  simp

lemma hostMsg_startNewDoodleRound (fuel : Nat) : ∀ (rnd : Nat) (rid : String)
    (st : ServerState),
    ((startNewDoodleRound fuel rnd rid st).2).countP isHostAnnouncement = 0 := by
  induction fuel with
  | zero => intro rnd rid st; rfl
  | succ n ih =>
    intro rnd rid st
    simp only [startNewDoodleRound]
    repeat' split
    all_goals
      first
      | exact ih rnd rid _
      | simp [List.countP_cons, isHostAnnouncement]

lemma findIndexA_lt_length {α : Type} {p : α → Bool} {l : List α} {i : Nat}
    (h : findIndexA p l = some i) : i < l.length := by
  rcases findIndexA_get? p l i h with ⟨a, ha, _⟩
  exact List.get?_eq_some.mp ha |>.1

lemma isHA_chat (r : String) (s : Option String) (n t : String) :
    isHostAnnouncement (Emit.chatToRoom r s n t) = false := rfl

lemma isHA_roomsList (l : List RoomSummary) :
    isHostAnnouncement (Emit.roomsList l) = false := rfl

lemma isHA_state (r : String) (p : StatePayload) :
    isHostAnnouncement (Emit.gameStateRoom r p) = false := rfl

lemma isHA_drawerLeft (r : String) :
    isHostAnnouncement
      (Emit.gameMessageRoom r "The drawer left. Starting a new round.") = false := rfl

/-- A doodle round start never moves the host: the looked-up creator id is
unchanged. -/
lemma creator_after_doodleStart (fuel rnd : Nat) (rid : String) (st : ServerState) :
    ((lookupA (startNewDoodleRound fuel rnd rid st).1.activeGameRooms rid).map
        Room.creatorId)
      = ((lookupA st.activeGameRooms rid).map Room.creatorId) := by
  rcases rooms_startNewDoodleRound fuel rnd rid st with hr | ⟨r, hlk, hr⟩
  · rw [hr]
  · rw [hr, lookupA_setA_self, hlk]
    rfl

/-- Host re-election: when the host departs and the room survives, the next
remaining member becomes host and exactly one announcement is emitted. -/
lemma host_reelection (rnd : Nat) (sid rid : String) (st : ServerState)
    (room : Room) (i : Nat)
    (h1 : lookupA st.activeGameRooms rid = some room)
    (h2 : findIndexA (fun p => p.id == sid) room.players = some i)
    (h3 : 2 ≤ (room.players.eraseIdx i).length)
    (hcap : room.gameType = "hangman" → room.players.length ≤ 2)
    (h4 : room.creatorId = sid) :
    ((lookupA (handlePlayerLeave rnd sid rid st).1.activeGameRooms rid).map
        Room.creatorId)
      = some ((room.players.eraseIdx i).getD 0 default).id
    ∧ (handlePlayerLeave rnd sid rid st).2.countP isHostAnnouncement = 1 := by
  have hlt : i < room.players.length := findIndexA_lt_length h2
  have hle : (room.players.eraseIdx i).length = room.players.length - 1 := by
    simp [List.length_eraseIdx, hlt]
  have hng : room.gameType ≠ "hangman" := fun hg => by
    have := hcap hg
    omega
  simp only [handlePlayerLeave, h1, h2]
  rw [if_neg (by omega : ¬ (room.players.eraseIdx i).length < 2)]
  rw [if_pos (by simp [h4] : (room.creatorId == sid) = true)]
  rcases hgs : lookupA st.gameStates rid with _ | gs
  all_goals simp only [hgs]
  case none =>
    constructor
    · rw [setA_setA, lookupA_setA_self]
      rfl
    · simp [List.countP_append, List.countP_cons, List.countP_nil,
        isHostAnnouncement_append, isHA_chat, isHA_roomsList, isHA_state]
  case some =>
    have hhb : (room.gameType == "hangman"
        && (gs.currentPlayerTurn == some sid)) = false := by
      simp [hng]
    simp only [hhb, Bool.false_eq_true, ite_false]
    by_cases hact : gs.isRoundActive = true
    · simp only [hact, ite_true]
      by_cases hdr : (room.gameType == "doodle"
          && ((Option.map (fun u : User => u.id) gs.drawer).getD "" == sid)) = true
      · simp only [hdr, ite_true]
        constructor
        · rw [creator_after_doodleStart]
          simp only [rooms_clearTimeoutS]
          rw [setA_setA, lookupA_setA_self]
          rfl
        · simp [List.countP_append, List.countP_cons, List.countP_nil,
            isHostAnnouncement_append, isHA_chat, isHA_roomsList, isHA_state,
            isHA_drawerLeft, hostMsg_startNewDoodleRound]
      · simp only [hdr, Bool.false_eq_true, ite_false]
        constructor
        · rw [setA_setA, lookupA_setA_self]
          rfl
        · simp [List.countP_append, List.countP_cons, List.countP_nil,
            isHostAnnouncement_append, isHA_chat, isHA_roomsList, isHA_state]
    · simp only [if_neg hact]
      constructor
      · rw [setA_setA, lookupA_setA_self]
        rfl
      · simp [List.countP_append, List.countP_cons, List.countP_nil,
          isHostAnnouncement_append, isHA_chat, isHA_roomsList, isHA_state]

/-- Specification of a successful doodle round start: membership and cursor
are recomputed, the drawer is resolved from the new cursor, scores are
untouched, and the round becomes active. -/
lemma startNewDoodleRound_success (fuel rnd : Nat) (rid : String)
    (st : ServerState) (gs : GameState) (room : Room) (du : User)
    (h1 : lookupA st.gameStates rid = some gs)
    (h2 : lookupA st.activeGameRooms rid = some room)
    (h3 : 2 ≤ room.players.length)
    (h4 : lookupA st.users
        ((room.players.map (fun u : User => u.id)).getD
          (((gs.currentPlayerIndex + 1).tmod (room.players.length : Int)).toNat) "")
        = some du) :
    ∃ w gs',
      lookupA (startNewDoodleRound (fuel + 1) rnd rid st).1.gameStates rid = some gs'
      ∧ gs'.players = room.players.map (fun u : User => u.id)
      ∧ gs'.currentPlayerIndex
          = (((gs.currentPlayerIndex + 1).tmod (room.players.length : Int)).toNat : Int)
      ∧ gs'.isRoundActive = true
      ∧ gs'.scores = gs.scores
      ∧ gs'.drawer = some du
      ∧ gs'.word = some w
      ∧ lookupA (startNewDoodleRound (fuel + 1) rnd rid st).1.activeGameRooms rid
          = some room
      ∧ Emit.gameNewRound rid ∈ (startNewDoodleRound (fuel + 1) rnd rid st).2 := by
  simp only [startNewDoodleRound, h1, h2, Option.isNone_some, Bool.or_self,
    Bool.false_or, Option.elim, List.length_map]
  rw [show (decide (room.players.length < 2)) = false from decide_eq_false (by omega)]
  simp only [Bool.false_eq_true, ite_false, h4]
  by_cases hav :
      (DOODLE_WORDS.filter (fun w => !(gs.usedWords.contains w))).isEmpty
  all_goals simp only [hav, ite_true, ite_false]
  all_goals exact ⟨_, _, lookupA_setA_self _ _ _, rfl, rfl, rfl, rfl, rfl, rfl,
    h2, by simp⟩

-- CLAIM THEOREMS

/-- Claim C5: when a member leaves a room and the remaining membership is
below the variant minimum of 2, the room and its game state are both
deleted from the registries, the public room list no longer contains the
room, the state broadcast reflecting that is emitted, and any pending
round or turn timers of an active round are cancelled. -/
theorem claim_C5 (rnd : Nat) (sid rid : String) (st : ServerState)
    (room : Room) (i : Nat)
    (h1 : lookupA st.activeGameRooms rid = some room)
    (h2 : findIndexA (fun p => p.id == sid) room.players = some i)
    (h3 : (room.players.eraseIdx i).length < 2)
    (hids : RoomIdInv st) :
    lookupA (handlePlayerLeave rnd sid rid st).1.activeGameRooms rid = none
    ∧ lookupA (handlePlayerLeave rnd sid rid st).1.gameStates rid = none
    ∧ (∀ s ∈ getPublicRoomList (handlePlayerLeave rnd sid rid st).1, s.id ≠ rid)
    ∧ Emit.roomsList (getPublicRoomList (handlePlayerLeave rnd sid rid st).1)
        ∈ (handlePlayerLeave rnd sid rid st).2
    ∧ (∀ gs, lookupA st.gameStates rid = some gs → gs.isRoundActive = true →
        (∀ tid, gs.roundTimer = some tid →
          ∀ t, (tid, t) ∉ (handlePlayerLeave rnd sid rid st).1.pendingTimers)
        ∧ (∀ tid, gs.turnTimer = some tid →
          ∀ t, (tid, t) ∉ (handlePlayerLeave rnd sid rid st).1.pendingTimers)) := by
  simp only [handlePlayerLeave, h1, h2]
  rw [if_pos h3]
  rcases hgs : lookupA st.gameStates rid with _ | gs
  all_goals simp only [hgs]
  case none =>
    refine ⟨lookupA_eraseA_self _ _, lookupA_eraseA_self _ _, ?_, by simp, ?_⟩
    · intro s hs
      rcases List.mem_map.mp hs with ⟨p, hp, hsp⟩
      rcases mem_setA (mem_eraseA hp).1 with h5 | h5
      · rw [← hsp]
        simpa [hids p h5] using (mem_eraseA hp).2
      · exact absurd (by rw [h5]) (mem_eraseA hp).2
    · intro gs hgs'
      simp at hgs'
  case some =>
    by_cases hact : gs.isRoundActive = true
    all_goals simp only [hact, ite_true, Bool.false_eq_true, ite_false]
    · refine ⟨lookupA_eraseA_self _ _, lookupA_eraseA_self _ _, ?_, by simp, ?_⟩
      · intro s hs
        rcases List.mem_map.mp hs with ⟨p, hp, hsp⟩
        rcases mem_setA (mem_eraseA hp).1 with h5 | h5
        · rw [← hsp]
          simpa [hids p h5] using (mem_eraseA hp).2
        · exact absurd (by rw [h5]) (mem_eraseA hp).2
      · intro gs' hgs'
        injection hgs' with hE
        subst hE
        intro _
        constructor
        · intro tid hrt t hmem
          rw [hrt] at hmem
          exact notMem_clearTimeoutS_self _ tid t
            (pendingTimers_clearTimeoutS_subset _ _ hmem)
        · intro tid htt t hmem
          rw [htt] at hmem
          exact notMem_clearTimeoutS_self _ tid t hmem
    · refine ⟨lookupA_eraseA_self _ _, lookupA_eraseA_self _ _, ?_, by simp, ?_⟩
      · intro s hs
        rcases List.mem_map.mp hs with ⟨p, hp, hsp⟩
        rcases mem_setA (mem_eraseA hp).1 with h5 | h5
        · rw [← hsp]
          simpa [hids p h5] using (mem_eraseA hp).2
        · exact absurd (by rw [h5]) (mem_eraseA hp).2
      · intro gs' hgs'
        injection hgs' with hE
        subst hE
        intro hact'
        exact absurd hact' hact

/-- Claim C2 (amended): a stale hangman turn timer is harmless only because
`handleHangmanTimeout` returns without any effect when the game state is
gone or the round is no longer active; the doodle round timer's callback
has no staleness guard at all — run, it always emits the time's-up message
with the word it captured and schedules another round advance, so doodle
staleness protection rests solely on `clearTimeout` cancellation. -/
theorem claim_C2 :
    (∀ (rid : String) (st : ServerState),
       lookupA st.gameStates rid = none → handleHangmanTimeout rid st = (st, []))
    ∧ (∀ (rid : String) (st : ServerState) (gs : GameState),
       lookupA st.gameStates rid = some gs → gs.isRoundActive = false →
       handleHangmanTimeout rid st = (st, []))
    ∧ (∀ (rnd : Nat) (rid w : String) (st : ServerState),
       (runTask rnd (TimerTask.doodleRound rid w) st).2
         = [Emit.gameMessageRoom rid ("Time's up! The word was '" ++ w ++ "'.")]
       ∧ (st.nextTimerId, TimerTask.doodleNext rid)
           ∈ (runTask rnd (TimerTask.doodleRound rid w) st).1.pendingTimers) := by
  refine ⟨?_, ?_, ?_⟩
  · intro rid st h
    simp [handleHangmanTimeout, h]
  · intro rid st gs h hact
    simp [handleHangmanTimeout, h, hact]
  · intro rnd rid w st
    refine ⟨rfl, ?_⟩
    simp [runTask, setTimeoutS]

/-- The events leading to a doodle round that is then resolved by a correct
guess: the round timer (handle 0) is superseded before it fires. -/
def opsC2 : List Op :=
  [Op.userInfo "u1" "Alice" "" 0,
   Op.userInfo "u2" "Bob" "" 0,
   Op.gameCreate "u1" (some "Room") none (some "doodle"),
   Op.gameJoin "u2" "game-0" none,
   Op.gameStart "u1" "game-0" 0 0,
   Op.chatMessage "u2" "game-0" "Apple "]

/-- The state after the round was resolved by the correct guess. -/
def stC2 : ServerState := (runOps opsC2 {}).1

/-- Claim C2, counterexample: the round timer scheduled at round start
(handle 0, task `doodleRound "game-0" "apple"`) is superseded by the
correct guess, yet letting its callback run emits a time's-up message for
the stale round and mutates the state (it schedules another round
advance). -/
theorem claim_C2_cex :
    (0, TimerTask.doodleRound "game-0" "apple")
        ∈ (runOps (opsC2.take 5) {}).1.pendingTimers
    ∧ stC2.pendingTimers.all (fun p => p.1 != 0) = true
    ∧ (runTask 0 (TimerTask.doodleRound "game-0" "apple") stC2).2
        = [Emit.gameMessageRoom "game-0" "Time's up! The word was 'apple'."]
    ∧ (runTask 0 (TimerTask.doodleRound "game-0" "apple") stC2).1 ≠ stC2 := by
  exact ⟨by decide, by decide, by decide, by decide⟩

/-- The events that create and start a two-player hangman game. -/
def opsC3 : List Op :=
  [Op.userInfo "u1" "Alice" "" 0,
   Op.userInfo "u2" "Bob" "" 0,
   Op.gameCreate "u1" (some "Room") none (some "hangman"),
   Op.gameJoin "u2" "game-0" none,
   Op.gameStart "u1" "game-0" 0 0]

/-- Claim C3: starting a hangman round broadcasts a `game:state` payload to
the whole room that contains the secret word (the serializer strips only
the timer handle, lines 797-801), while the round is active — the
confidentiality boundary of the specification is violated by the code. -/
theorem claim_C3 :
    ((lookupA (runOps opsC3 {}).1.gameStates "game-0").bind
        (fun gs => gs.word)) = some "javascript"
    ∧ ((runOps opsC3 {}).2.any (fun e =>
        match e with
        | Emit.gameStateRoom r p =>
          r == "game-0" && p.word == some "javascript"
            && p.isRoundActive == some true
        | _ => false)) = true := by
  exact ⟨by decide, by decide⟩

/-- Claim C9 (amended): a chat message from the current drawer during an
active doodle round is rejected with a sender-only notice, is not relayed,
and changes nothing; a message arriving while no round is active is not
scored and leaves every game state unchanged, but it is relayed to the
whole room as an ordinary chat message rather than dropped. -/
theorem claim_C9 :
    (∀ (sid : String) (user : User) (room text : String) (st : ServerState)
       (gs : GameState) (d : User),
       lookupA st.gameStates room = some gs →
       gs.drawer = some d →
       sid = d.id →
       handleDoodleGuess sid user room text st
         = (st, [Emit.rateLimit sid "You cannot chat while drawing."]))
    ∧ (∀ (sid room text : String) (st : ServerState) (user : User),
       lookupA st.users sid = some user →
       (jsTrim text).data.length ≠ 0 →
       text.data.length ≤ 500 →
       (((lookupA st.userMessageTimestamps sid).getD []).filter
           (fun ts => st.time - ts < RATE_LIMIT_SECONDS * 1000)).length
         < RATE_LIMIT_COUNT →
       (∀ gs, lookupA st.gameStates room = some gs → gs.isRoundActive = false) →
       (step (Op.chatMessage sid room text) st).1.gameStates = st.gameStates
       ∧ Emit.chatToRoom room (some sid) user.name (jsTrim text)
           ∈ (step (Op.chatMessage sid room text) st).2) := by
  constructor
  · intro sid user room text st gs d h1 hd hsid
    have hdid : (Option.map (fun u : User => u.id) gs.drawer).getD "" = d.id := by
      rw [hd]
      rfl
    simp only [handleDoodleGuess, h1, hdid, hsid]
    simp
  · intro sid room text st user hu hv1 hv2 hrl hia
    have hc1 : ((jsTrim text).data.length == 0) = false := by
      simpa using hv1
    have hc2 : (decide (500 < text.data.length)) = false :=
      decide_eq_false (by omega)
    simp only [step, hu, hc1, hc2, Bool.or_self, Bool.false_or,
      Bool.false_eq_true, ite_false]
    rw [if_neg (by omega : ¬ RATE_LIMIT_COUNT ≤
      (((lookupA st.userMessageTimestamps sid).getD []).filter
        (fun ts => st.time - ts < RATE_LIMIT_SECONDS * 1000)).length)]
    have hidg :
        (match lookupA st.gameStates room, lookupA st.activeGameRooms room with
         | some gameState, some roomData =>
           gameState.isRoundActive && roomData.gameType == "doodle"
         | _, _ => false) = false := by
      rcases hg : lookupA st.gameStates room with _ | gs
      · rcases lookupA st.activeGameRooms room with _ | rd <;> rfl
      · rcases lookupA st.activeGameRooms room with _ | rd
        · rfl
        · simp [hia gs hg]
    simp only [hidg, Bool.false_eq_true, ite_false]
    exact ⟨rfl, by simp [relayChat]⟩

/-- Claim C4: during an active doodle round a non-drawer's message is
scored as a correct guess exactly when its trimmed, lower-cased text equals
the lower-cased secret word; on a hit (with the drawer still registered and
nobody reaching the winning score) the guesser gains 2 points, the drawer
gains 1, and the next round is scheduled; on a miss the message is relayed
to the room as ordinary chat and the state is unchanged. -/
theorem claim_C4 (sid : String) (user : User) (room text : String)
    (st : ServerState) (gs : GameState) (d : User) (w : String)
    (h1 : lookupA st.gameStates room = some gs)
    (hd : gs.drawer = some d)
    (hw : gs.word = some w)
    (hne : sid ≠ d.id) :
    (((handleDoodleGuess sid user room text st).2.any
        (fun e => match e with
          | Emit.correctGuess r _ _ => r == room
          | _ => false)) = true
      ↔ jsToLower (jsTrim text) = jsToLower w)
    ∧ (jsToLower (jsTrim text) = jsToLower w →
       (lookupA st.users d.id).isSome = true →
       ((setA (setA gs.scores sid ((lookupA gs.scores sid).getD 0 + 2)) d.id
           ((lookupA gs.scores d.id).getD 0 + 1)).find?
           (fun q => decide (WINNING_SCORE ≤ q.2))) = none →
       ∃ gs',
         lookupA (handleDoodleGuess sid user room text st).1.gameStates room
           = some gs'
         ∧ lookupA gs'.scores sid = some ((lookupA gs.scores sid).getD 0 + 2)
         ∧ lookupA gs'.scores d.id = some ((lookupA gs.scores d.id).getD 0 + 1)
         ∧ (st.nextTimerId, TimerTask.doodleNext room)
             ∈ (handleDoodleGuess sid user room text st).1.pendingTimers)
    ∧ (jsToLower (jsTrim text) ≠ jsToLower w →
       handleDoodleGuess sid user room text st
         = (st, [Emit.chatToRoom room (some user.id) user.name text])) := by
  have hdid : (Option.map (fun u : User => u.id) gs.drawer).getD "" = d.id := by
    rw [hd]
    rfl
  have hbne : (sid == d.id) = false := by
    simpa using hne
  by_cases hm : jsToLower (jsTrim text) = jsToLower w
  · have hbm : (jsToLower (jsTrim text) == jsToLower (gs.word.getD "")) = true := by
      simp [hw, hm]
    refine ⟨?_, ?_, fun hn => absurd hm hn⟩
    · simp only [handleDoodleGuess, h1, hdid, hbne, Bool.false_eq_true, ite_false,
        hbm, ite_true]
      constructor
      · intro _
        exact hm
      · intro _
        repeat' split
        all_goals simp
    · intro _ hconn hnw
      have hd1 : lookupA (setA gs.scores sid ((lookupA gs.scores sid).getD 0 + 2))
          d.id = lookupA gs.scores d.id :=
        lookupA_setA_ne _ _ _ _ (fun e => hne e.symm)
      simp only [handleDoodleGuess, h1, hdid, hbne, Bool.false_eq_true, ite_false,
        hbm, ite_true, hconn, hd1]
      rw [show ((setA (setA gs.scores sid ((lookupA gs.scores sid).getD 0 + 2)) d.id
           ((lookupA gs.scores d.id).getD 0 + 1)).find?
           (fun q => decide (WINNING_SCORE ≤ q.2))) = none from hnw]
      refine ⟨_, lookupA_setA_self _ _ _, ?_, ?_, ?_⟩
      · rw [show lookupA (setA (setA gs.scores sid ((lookupA gs.scores sid).getD 0 + 2))
            d.id ((lookupA gs.scores d.id).getD 0 + 1)) sid
            = lookupA (setA gs.scores sid ((lookupA gs.scores sid).getD 0 + 2)) sid from
          lookupA_setA_ne _ _ _ _ hne]
        exact lookupA_setA_self _ _ _
      · exact lookupA_setA_self _ _ _
      · simp [setTimeoutS, clearTimeoutS]
  · have hbm : (jsToLower (jsTrim text) == jsToLower (gs.word.getD "")) = false := by
      simp [hw, hm]
    refine ⟨?_, fun he => absurd he hm, fun _ => ?_⟩
    · simp only [handleDoodleGuess, h1, hdid, hbne, Bool.false_eq_true, ite_false,
        hbm]
      simp [hm]
    · simp only [handleDoodleGuess, h1, hdid, hbne, Bool.false_eq_true, ite_false,
        hbm]

/-- Claim C10: on a correct guess the guesser always gains 2 points, but
the drawer's score entry is updated only when the drawer's connection is
still registered; if the drawer has disconnected, the drawer's entry is
left exactly as it was and the round still resolves (the correct-guess
reveal is emitted and, with nobody at the winning score, the next round is
scheduled). -/
theorem claim_C10 (sid : String) (user : User) (room text : String)
    (st : ServerState) (gs : GameState) (d : User) (w : String)
    (h1 : lookupA st.gameStates room = some gs)
    (hd : gs.drawer = some d)
    (hw : gs.word = some w)
    (hne : sid ≠ d.id)
    (hm : jsToLower (jsTrim text) = jsToLower w)
    (hdc : lookupA st.users d.id = none)
    (hnw : ((setA gs.scores sid ((lookupA gs.scores sid).getD 0 + 2)).find?
        (fun q => decide (WINNING_SCORE ≤ q.2))) = none) :
    ∃ gs',
      lookupA (handleDoodleGuess sid user room text st).1.gameStates room
        = some gs'
      ∧ lookupA gs'.scores sid = some ((lookupA gs.scores sid).getD 0 + 2)
      ∧ lookupA gs'.scores d.id = lookupA gs.scores d.id
      ∧ Emit.correctGuess room user.id w ∈ (handleDoodleGuess sid user room text st).2
      ∧ (st.nextTimerId, TimerTask.doodleNext room)
          ∈ (handleDoodleGuess sid user room text st).1.pendingTimers := by
  have hdid : (Option.map (fun u : User => u.id) gs.drawer).getD "" = d.id := by
    rw [hd]
    rfl
  have hbne : (sid == d.id) = false := by
    simpa using hne
  have hbm : (jsToLower (jsTrim text) == jsToLower (gs.word.getD "")) = true := by
    simp [hw, hm]
  simp only [handleDoodleGuess, h1, hdid, hbne, Bool.false_eq_true, ite_false,
    hbm, ite_true, hdc, Option.isSome_none, hnw]
  refine ⟨_, lookupA_setA_self _ _ _, lookupA_setA_self _ _ _,
    lookupA_setA_ne _ _ _ _ (fun e => hne e.symm), by simp [hw],
    by simp [setTimeoutS, clearTimeoutS]⟩

/-- Claim C7: `game:start` succeeds only for the host of a room with
enough members; for the drawing variant it stores a round state whose
scores map every current member to 0, whose player order is the current
membership, and whose cursor lands on index 0 for the first round (it was
initialized to -1 and advanced once), sets `inProgress`, and starts the
round; when a precondition fails nothing changes and at most a sender-only
notice is emitted. -/
theorem claim_C7 :
    (∀ (sid rid : String) (rnd rnd2 : Nat) (st : ServerState) (room : Room)
       (user du : User),
       lookupA st.activeGameRooms rid = some room →
       lookupA st.users sid = some user →
       user.id = room.creatorId →
       room.gameType = "doodle" →
       2 ≤ room.players.length →
       lookupA st.users ((room.players.map (fun u : User => u.id)).getD 0 "")
         = some du →
       ((lookupA (step (Op.gameStart sid rid rnd rnd2) st).1.activeGameRooms
           rid).map (fun r => r.inProgress)) = some true
       ∧ ∃ gs',
           lookupA (step (Op.gameStart sid rid rnd rnd2) st).1.gameStates rid
             = some gs'
           ∧ gs'.scores = room.players.map (fun p : User => (p.id, (0 : Int)))
           ∧ gs'.players = room.players.map (fun u : User => u.id)
           ∧ gs'.currentPlayerIndex = 0
           ∧ gs'.isRoundActive = true
           ∧ gs'.drawer = some du)
    ∧ (∀ (sid rid : String) (rnd rnd2 : Nat) (st : ServerState) (room : Room)
       (user : User),
       lookupA st.activeGameRooms rid = some room →
       lookupA st.users sid = some user →
       user.id ≠ room.creatorId →
       step (Op.gameStart sid rid rnd rnd2) st = (st, []))
    ∧ (∀ (sid rid : String) (rnd rnd2 : Nat) (st : ServerState) (room : Room)
       (user : User),
       lookupA st.activeGameRooms rid = some room →
       lookupA st.users sid = some user →
       user.id = room.creatorId →
       room.gameType = "doodle" →
       room.players.length < 2 →
       step (Op.gameStart sid rid rnd rnd2) st
         = (st, [Emit.gameMessageSocket sid
             "Doodle Dash requires at least 2 players to start."]))
    ∧ (∀ (sid rid : String) (rnd rnd2 : Nat) (st : ServerState) (room : Room)
       (user : User),
       lookupA st.activeGameRooms rid = some room →
       lookupA st.users sid = some user →
       user.id = room.creatorId →
       room.gameType = "hangman" →
       room.players.length ≠ 2 →
       step (Op.gameStart sid rid rnd rnd2) st
         = (st, [Emit.gameMessageSocket sid
             "Hangman requires exactly 2 players to start."])) := by
  refine ⟨?_, ?_, ?_, ?_⟩
  · intro sid rid rnd rnd2 st room user du hroom husr hhost hgt h3 hdu
    have hc1 : (user.id != room.creatorId) = false := by
      simp [hhost]
    have hc2 : (room.gameType == "hangman") = false := by
      simp [hgt]
    have hc3 : (decide (room.players.length < 2)) = false :=
      decide_eq_false (by omega)
    have hc4 : (room.gameType == "doodle") = true := by
      simp [hgt]
    simp only [step, hroom, husr, hc1, hc2, hc3, hc4, Bool.false_and,
      Bool.true_and, Bool.and_false, Bool.false_eq_true, ite_false, ite_true]
    obtain ⟨w, gs', hA, hB, hC, hD, hE, hF, -, hH, -⟩ :=
      startNewDoodleRound_success room.players.length rnd rid
        { st with
          activeGameRooms :=
            setA st.activeGameRooms rid { room with inProgress := true },
          gameStates := setA st.gameStates rid
            { gameType := "doodle",
              players := room.players.map (fun p : User => p.id),
              scores := room.players.map (fun p : User => (p.id, (0 : Int))),
              isRoundActive := false,
              creatorId := room.creatorId,
              currentPlayerIndex := -1,
              drawingHistory := [], usedWords := [] } }
        _ { room with inProgress := true } du
        (lookupA_setA_self _ _ _) (lookupA_setA_self _ _ _) h3
        (by simpa [show ((-1 : Int) + 1) = 0 from by omega, Int.zero_tmod]
          using hdu)
    constructor
    · exact show ((lookupA (startNewDoodleRound (room.players.length + 1) rnd rid
          _).1.activeGameRooms rid).map (fun r => r.inProgress)) = some true from by
        rw [hH]
        rfl
    · exact ⟨gs', hA, hE, hB,
        by rw [hC]
           simp [show ((-1 : Int) + 1) = 0 from by omega, Int.zero_tmod],
        hD, hF⟩
  · intro sid rid rnd rnd2 st room user hroom husr hne
    have hc1 : (user.id != room.creatorId) = true := by
      simp [hne]
    simp only [step, hroom, husr, hc1, ite_true]
  · intro sid rid rnd rnd2 st room user hroom husr hhost hgt hlen
    have hc1 : (user.id != room.creatorId) = false := by
      simp [hhost]
    have hc2 : (room.gameType == "hangman") = false := by
      simp [hgt]
    have hc3 : (room.gameType == "doodle") = true := by
      simp [hgt]
    have hc4 : (decide (room.players.length < 2)) = true := decide_eq_true hlen
    simp only [step, hroom, husr, hc1, hc2, hc3, hc4, Bool.false_and,
      Bool.true_and, Bool.false_eq_true, ite_false, ite_true]
  · intro sid rid rnd rnd2 st room user hroom husr hhost hgt hlen
    have hc1 : (user.id != room.creatorId) = false := by
      simp [hhost]
    have hc2 : (room.gameType == "hangman") = true := by
      simp [hgt]
    have hc3 : (room.players.length != 2) = true := by
      simp [hlen]
    simp only [step, hroom, husr, hc1, hc2, hc3, Bool.true_and,
      Bool.false_eq_true, ite_false, ite_true]

/-- Claim C1 (amended): whenever a doodle round advance completes with a
connected drawer, the turn cursor is a valid index into the round state's
player-order list and that list equals the room's current membership. -/
theorem claim_C1 (fuel rnd : Nat) (rid : String) (st : ServerState)
    (gs : GameState) (room : Room) (du : User)
    (h1 : lookupA st.gameStates rid = some gs)
    (h2 : lookupA st.activeGameRooms rid = some room)
    (h3 : 2 ≤ room.players.length)
    (hidx : 0 ≤ gs.currentPlayerIndex + 1)
    (h4 : lookupA st.users
        ((room.players.map (fun u : User => u.id)).getD
          (((gs.currentPlayerIndex + 1).tmod (room.players.length : Int)).toNat) "")
        = some du) :
    ∃ gs',
      lookupA (startNewDoodleRound (fuel + 1) rnd rid st).1.gameStates rid
        = some gs'
      ∧ gs'.currentPlayerIndex.toNat < gs'.players.length
      ∧ gs'.players = room.players.map (fun u : User => u.id)
      ∧ gs'.isRoundActive = true := by
  obtain ⟨w, gs', hA, hB, hC, hD, -, -, -, -, -⟩ :=
    startNewDoodleRound_success fuel rnd rid st gs room du h1 h2 h3 h4
  refine ⟨gs', hA, ?_, hB, hD⟩
  rw [hC, hB]
  have hb := tmod_toNat_lt (gs.currentPlayerIndex + 1) room.players.length hidx
    (by omega)
  simp only [Int.toNat_ofNat, List.length_map]
  exact hb

/-- The trace for claim C1's counterexample: a three-member doodle game in
which a non-drawer, non-host member leaves mid-round. -/
def opsC1 : List Op :=
  [Op.userInfo "u1" "Alice" "" 0,
   Op.userInfo "u2" "Bob" "" 0,
   Op.userInfo "u3" "Carol" "" 0,
   Op.gameCreate "u1" (some "Room") none (some "doodle"),
   Op.gameJoin "u2" "game-0" none,
   Op.gameJoin "u3" "game-0" none,
   Op.gameStart "u1" "game-0" 0 0,
   Op.gameLeave "u3" "game-0" 0]

/-- Claim C1, counterexample: after the mid-round leave the room is still
in progress with an active round, but the round state's player-order list
still contains the departed u3, who is no longer a member — the invariant
as claimed is violated (the list is only recomputed at round starts). -/
theorem claim_C1_cex :
    turnCursorInvCheck (runOps opsC1 {}).1 = false
    ∧ ((lookupA (runOps opsC1 {}).1.activeGameRooms "game-0").map
        (fun r => r.inProgress)) = some true
    ∧ ((lookupA (runOps opsC1 {}).1.gameStates "game-0").map
        (fun gs => gs.isRoundActive && gs.players.contains "u3")) = some true
    ∧ ((lookupA (runOps opsC1 {}).1.activeGameRooms "game-0").map
        (fun r => r.players.any (fun u => u.id == "u3"))) = some false := by
  exact ⟨by decide, by decide, by decide, by decide⟩

/-- Claim C6: every step of the event loop preserves the at-most-one-host
invariant (the registered host is always a current member, given the
id-keyed user registry), and a departing host with enough members left is
replaced by the next remaining member with exactly one announcement. -/
theorem claim_C6 :
    (∀ (op : Op) (st : ServerState), UsersIdInv st → HostInv st →
       UsersIdInv (step op st).1 ∧ HostInv (step op st).1)
    ∧ (∀ (rnd : Nat) (sid rid : String) (st : ServerState) (room : Room) (i : Nat),
       lookupA st.activeGameRooms rid = some room →
       findIndexA (fun p => p.id == sid) room.players = some i →
       2 ≤ (room.players.eraseIdx i).length →
       (room.gameType = "hangman" → room.players.length ≤ 2) →
       room.creatorId = sid →
       ((lookupA (handlePlayerLeave rnd sid rid st).1.activeGameRooms rid).map
           Room.creatorId)
         = some ((room.players.eraseIdx i).getD 0 default).id
       ∧ (handlePlayerLeave rnd sid rid st).2.countP isHostAnnouncement = 1) :=
  ⟨fun op st hu hh => inv_step op st hu hh, host_reelection⟩

/-- The attack trace for claim C8: x registers a profile but never joins
the room, then sends the secret word as a chat message to the room id. -/
def opsC8 : List Op :=
  [Op.userInfo "u1" "Alice" "" 0,
   Op.userInfo "u2" "Bob" "" 0,
   Op.userInfo "x" "Mallory" "" 0,
   Op.gameCreate "u1" (some "Room") none (some "doodle"),
   Op.gameJoin "u2" "game-0" none,
   Op.gameStart "u1" "game-0" 0 0,
   Op.chatMessage "x" "game-0" "apple"]

/-- Claim C8: a connected user who never joined the room can send a chat
message carrying the secret word to the room id; the guess handler checks
no membership and adds a score entry for the stranger.  The trace below
creates a two-member doodle room, starts it (secret word "apple", drawer
u1), and then lets the non-member x guess; afterwards `scores` maps x to 2
although x was never a member of the room in any visited state. -/
theorem claim_C8 :
    ((lookupA (runOps opsC8 {}).1.gameStates "game-0").bind
      (fun gs => lookupA gs.scores "x")) = some 2
    ∧ (statesOf opsC8 {}).all (fun st =>
        (lookupA st.activeGameRooms "game-0").elim true
          (fun r => !(r.players.any (fun u => u.id == "x")))) = true := by
  exact ⟨by decide, by decide⟩

/-- The events of a doodle room that was never started: no round is
active when u2's message arrives. -/
def opsC9 : List Op :=
  [Op.userInfo "u1" "Alice" "" 0,
   Op.userInfo "u2" "Bob" "" 0,
   Op.gameCreate "u1" (some "Room") none (some "doodle"),
   Op.gameJoin "u2" "game-0" none,
   Op.chatMessage "u2" "game-0" "apple"]

/-- Claim C9, counterexample: a guess submitted while no round is active is
not dropped — it is relayed to the whole room as an ordinary chat message,
contradicting the claim that such a guess is not relayed to other
members. -/
theorem claim_C9_cex :
    Emit.chatToRoom "game-0" (some "u2") "Bob" "apple" ∈ (runOps opsC9 {}).2
    ∧ lookupA (runOps opsC9 {}).1.gameStates "game-0" = none := by
  exact ⟨by decide, by decide⟩


-- WITNESS FIXTURES: a small live doodle room used to instantiate the
-- hypotheses of the universal claim theorems at concrete inputs.

def uW1 : User := { id := "w1", name := "Ann" }

def uW2 : User := { id := "w2", name := "Ben" }

def uW3 : User := { id := "w3", name := "Cal" }

def roomW : Room :=
  { id := "game-9", name := "W", creatorId := "w1", creatorName := "Ann",
    players := [uW1, uW2], inProgress := true, gameType := "doodle" }

def gsW : GameState :=
  { gameType := "doodle", players := ["w1", "w2"],
    scores := [("w1", 0), ("w2", 0)], isRoundActive := true,
    creatorId := "w1", currentPlayerIndex := 0, drawer := some uW1,
    word := some "apple", roundTimer := some 0 }

def stW : ServerState :=
  { users := [("w1", uW1), ("w2", uW2)],
    activeGameRooms := [("game-9", roomW)],
    gameStates := [("game-9", gsW)],
    pendingTimers := [(0, TimerTask.doodleRound "game-9" "apple")],
    nextTimerId := 1 }

def gsW2 : GameState :=
  { gameType := "hangman", players := ["w1", "w2"], isRoundActive := false,
    creatorId := "w1" }

def stW2 : ServerState := { gameStates := [("h", gsW2)] }

def roomW6 : Room :=
  { id := "game-6", name := "W6", creatorId := "w1", creatorName := "Ann",
    players := [uW1, uW2, uW3], inProgress := false, gameType := "doodle" }

def stW6 : ServerState :=
  { users := [("w1", uW1), ("w2", uW2), ("w3", uW3)],
    activeGameRooms := [("game-6", roomW6)] }

def roomW7 : Room :=
  { id := "game-7", name := "W7", creatorId := "w1", creatorName := "Ann",
    players := [uW1, uW2], inProgress := false, gameType := "doodle" }

def stW7 : ServerState :=
  { users := [("w1", uW1), ("w2", uW2)],
    activeGameRooms := [("game-7", roomW7)] }

def stW10 : ServerState :=
  { users := [("w2", uW2)],
    activeGameRooms := [("game-9", roomW)],
    gameStates := [("game-9", gsW)],
    pendingTimers := [(0, TimerTask.doodleRound "game-9" "apple")],
    nextTimerId := 1 }

/-- Witness for claim C1 at the concrete live room. -/
theorem claim_C1_witness :
    (2 ≤ roomW.players.length ∧ lookupA stW.gameStates "game-9" = some gsW)
    ∧ ∃ gs',
        lookupA (startNewDoodleRound 2 0 "game-9" stW).1.gameStates "game-9"
          = some gs'
        ∧ gs'.currentPlayerIndex.toNat < gs'.players.length
        ∧ gs'.players = roomW.players.map (fun u : User => u.id)
        ∧ gs'.isRoundActive = true :=
  ⟨⟨by decide, by decide⟩,
   claim_C1 1 0 "game-9" stW gsW roomW uW2 (by decide) (by decide) (by decide)
     (by decide) (by decide)⟩

/-- Witness for claim C2's guarded timeout handler at a concrete inactive
hangman state. -/
theorem claim_C2_witness :
    (lookupA stW2.gameStates "h" = some gsW2 ∧ gsW2.isRoundActive = false)
    ∧ handleHangmanTimeout "h" stW2 = (stW2, []) :=
  ⟨⟨by decide, by decide⟩, claim_C2.2.1 "h" stW2 gsW2 (by decide) (by decide)⟩

/-- Witness for claim C4 at the concrete live room (guess "Apple " against
the word "apple"). -/
theorem claim_C4_witness :
    (jsToLower (jsTrim "Apple ") = jsToLower "apple" ∧ "w2" ≠ uW1.id)
    ∧ (((handleDoodleGuess "w2" uW2 "game-9" "Apple " stW).2.any
        (fun e => match e with
          | Emit.correctGuess r _ _ => r == "game-9"
          | _ => false)) = true
      ↔ jsToLower (jsTrim "Apple ") = jsToLower "apple") :=
  ⟨⟨by decide, by decide⟩,
   (claim_C4 "w2" uW2 "game-9" "Apple " stW gsW uW1 "apple"
     (by decide) (by decide) (by decide) (by decide)).1⟩

/-- Witness for claim C5: the second of two members leaves the live room. -/
theorem claim_C5_witness :
    ((roomW.players.eraseIdx 1).length < 2 ∧ RoomIdInv stW)
    ∧ lookupA (handlePlayerLeave 0 "w2" "game-9" stW).1.activeGameRooms "game-9"
        = none :=
  ⟨⟨by decide, by unfold RoomIdInv; decide⟩,
   (claim_C5 0 "w2" "game-9" stW roomW 1 (by decide) (by decide) (by decide)
     (by unfold RoomIdInv; decide)).1⟩

/-- Witness for claim C6: the host leaves a three-member room and the next
member takes over with exactly one announcement. -/
theorem claim_C6_witness :
    (lookupA stW6.activeGameRooms "game-6" = some roomW6
      ∧ roomW6.creatorId = "w1")
    ∧ ((lookupA (handlePlayerLeave 0 "w1" "game-6" stW6).1.activeGameRooms
          "game-6").map Room.creatorId)
        = some ((roomW6.players.eraseIdx 0).getD 0 default).id
    ∧ (handlePlayerLeave 0 "w1" "game-6" stW6).2.countP isHostAnnouncement = 1 :=
  ⟨⟨by decide, by decide⟩,
   claim_C6.2 0 "w1" "game-6" stW6 roomW6 0 (by decide) (by decide) (by decide)
     (by decide) (by decide)⟩

/-- Witness for claim C7: the host starts the two-member doodle room. -/
theorem claim_C7_witness :
    (lookupA stW7.activeGameRooms "game-7" = some roomW7
      ∧ uW1.id = roomW7.creatorId)
    ∧ ((lookupA (step (Op.gameStart "w1" "game-7" 0 0) stW7).1.activeGameRooms
          "game-7").map (fun r => r.inProgress)) = some true
    ∧ ∃ gs',
        lookupA (step (Op.gameStart "w1" "game-7" 0 0) stW7).1.gameStates "game-7"
          = some gs'
        ∧ gs'.scores = roomW7.players.map (fun p : User => (p.id, (0 : Int)))
        ∧ gs'.players = roomW7.players.map (fun u : User => u.id)
        ∧ gs'.currentPlayerIndex = 0
        ∧ gs'.isRoundActive = true
        ∧ gs'.drawer = some uW1 :=
  ⟨⟨by decide, by decide⟩,
   claim_C7.1 "w1" "game-7" 0 0 stW7 roomW7 uW1 uW1 (by decide) (by decide)
     (by decide) (by decide) (by decide) (by decide)⟩

/-- Witness for claim C9: the drawer's own message in the live room is
answered with a sender-only notice and nothing changes. -/
theorem claim_C9_witness :
    (gsW.drawer = some uW1 ∧ "w1" = uW1.id)
    ∧ handleDoodleGuess "w1" uW1 "game-9" "hello" stW
        = (stW, [Emit.rateLimit "w1" "You cannot chat while drawing."]) :=
  ⟨⟨by decide, by decide⟩,
   claim_C9.1 "w1" uW1 "game-9" "hello" stW gsW uW1 (by decide) (by decide)
     (by decide)⟩

/-- Witness for claim C10: the drawer has disconnected, the guess still
scores the guesser and resolves the round. -/
theorem claim_C10_witness :
    (lookupA stW10.users uW1.id = none
      ∧ jsToLower (jsTrim "APPLE") = jsToLower "apple")
    ∧ ∃ gs',
        lookupA (handleDoodleGuess "w2" uW2 "game-9" "APPLE" stW10).1.gameStates
          "game-9" = some gs'
        ∧ lookupA gs'.scores "w2" = some ((lookupA gsW.scores "w2").getD 0 + 2)
        ∧ lookupA gs'.scores uW1.id = lookupA gsW.scores uW1.id
        ∧ Emit.correctGuess "game-9" uW2.id "apple"
            ∈ (handleDoodleGuess "w2" uW2 "game-9" "APPLE" stW10).2
        ∧ (stW10.nextTimerId, TimerTask.doodleNext "game-9")
            ∈ (handleDoodleGuess "w2" uW2 "game-9" "APPLE" stW10).1.pendingTimers :=
  ⟨⟨by decide, by decide⟩,
   claim_C10 "w2" uW2 "game-9" "APPLE" stW10 gsW uW1 "apple" (by decide)
     (by decide) (by decide) (by decide) (by decide) (by decide) (by decide)⟩
